import Mathlib

/-
Verification of the INAV JavaScript transpiler core
(code generator `codegen.js`, the current revision shipped as an ES module,
and decompiler `decompiler.js`, second revision in the packed file)
against its natural-language specification.

The shallow embedding below translates the JavaScript sources:
  - `inav_constants.js`   (operand-type and operation enumerations, name tables;
                           located at js/transpiler/transpiler/)
  - `codegen.js`          (class INAVCodeGenerator, the current ES-module revision
                           whose header locates it at
                           tabs/programming/transpiler/transpiler/codegen.js; the
                           generator is modelled with `variableHandler = null`, the
                           default of its constructor, so the variable-resolution
                           branches guarded by `this.variableHandler && ...` are
                           skipped exactly as at run time)
  - `decompiler.js`       (class Decompiler, the revision whose header locates it
                           at js/transpiler/transpiler/decompiler.js, alongside
                           inav_constants.js)
The codegen revision imports `./inav_constants.js` from its own (tabs) tree; that
file is not part of the available sources, so its operand-type member `LC` is
modelled from the spec as the wire value 4 (spec §3.2/§6.3: `LC_RESULT`, one enum
variant under two symbolic names; the available constants file corroborates the
value with its `GET_LC_VALUE: 4 ... (was LC)` entry).  The decompiler revision, by
contrast, sits in the same directory as the available constants file and imports
it directly; its `OPERAND_TYPE.LC` read therefore yields `undefined` (the key was
renamed), which the embedding models faithfully.
Stateful JavaScript (this.lcIndex / this.commands / this.errorHandler and AST-node
mutation for common-subexpression reuse) becomes explicit state passing on
`GenState`; JavaScript exceptions become `Except String`.
-/

namespace INAV

/-! ## JavaScript-semantics helpers -/

/-- JavaScript `x || d` where `x` is a possibly-undefined integer property:
`undefined` and `0` are falsy and select the default. -/
def jsOrInt (x : Option Int) (d : Int) : Int :=
  match x with
  | none => d
  | some v => if v = 0 then d else v

/-- Decimal value of a list of digit characters (as `parseInt` on a digit run). -/
def digitsToNat (ds : List Char) : Nat :=
  ds.foldl (fun n c => 10 * n + (c.toNat - 48)) 0

/-- The first maximal run of digits in a character list, as matched by the
JavaScript regular expression `/\d+/`. -/
def digitRun : List Char → Option (List Char)
  | [] => none
  | c :: cs => if c.isDigit then some (c :: cs.takeWhile Char.isDigit) else digitRun cs

/-- `parseInt(s.match(/\d+/)[0])`: the first digit run of `s` as a number,
`none` when `s` has no digit (in which case the JavaScript indexing `[0]` of the
`null` match result throws a `TypeError`). -/
def firstDigits (s : String) : Option Nat :=
  (digitRun s.data).map digitsToNat

/-- JavaScript `s.startsWith(p)` (defined over the character lists so that it
evaluates inside the kernel). -/
def jsStartsWith (s p : String) : Bool :=
  p.data.isPrefixOf s.data

/-- `target.match(/rc\[(\d+)\]/)`'s capture group: digits between `rc[` and `]`.
The JavaScript regex scans the whole string; this model anchors it at the front,
which coincides with the regex on every target of the canonical `rc[i]` shape
(the branch is only reached after a `startsWith('rc[')` check). -/
def parseRc (s : String) : Option Nat :=
  if jsStartsWith s ("rc[") then
    let rest := s.data.drop 3
    let ds := rest.takeWhile Char.isDigit
    match rest.dropWhile Char.isDigit with
    | ']' :: _ => if ds.isEmpty then none else some (digitsToNat ds)
    | _ => none
  else none

/-- Whether `needle` occurs as a contiguous sublist of `haystack`. -/
def listContainsSub (haystack needle : List Char) : Bool :=
  match haystack with
  | [] => needle.isEmpty
  | _ :: t => needle.isPrefixOf haystack || listContainsSub t needle

/-- JavaScript `haystack.includes(needle)`. -/
def jsIncludes (haystack needle : String) : Bool :=
  listContainsSub haystack.data needle.data

/-- Joins strings with a separator (JavaScript `Array.prototype.join`). -/
def sjoin (sep : String) : List String → String
  | [] => ""
  | [x] => x
  | x :: xs => x ++ sep ++ sjoin sep xs

/-- Association-list lookup with string keys (JavaScript object property read). -/
def lookupStr {α : Type} : List (String × α) → String → Option α
  | [], _ => none
  | p :: ps, k => if p.1 = k then some p.2 else lookupStr ps k

/-- Association-list lookup with integer keys (JavaScript object property read
by computed key, as in `OPERATION_NAMES[id]`). -/
def lookupInt {α : Type} : List (Int × α) → Int → Option α
  | [], _ => none
  | p :: ps, k => if p.1 = k then some p.2 else lookupInt ps k

/-- Association-list lookup with `Nat` keys, used for the statement-object map
that models the `conditionLcIndex` property written onto AST nodes. -/
def mapLookup : List (Nat × Nat) → Nat → Option Nat
  | [], _ => none
  | p :: ps, k => if p.1 = k then some p.2 else mapLookup ps k

/-! ## `inav_constants.js`: OPERAND_TYPE -/

/-- The eight members of the `OPERAND_TYPE` object (inav_constants.js lines
18-27).  The closed enumeration is embedded as an inductive whose `toInt` gives
the frozen wire integers.  The member for "result of another logic condition"
is spelled `GET_LC_VALUE` in the available inav_constants.js and `LC` in the
constants revision of the codegen tree (missing from the sources; modelled from
the spec, see the header comment): both names denote the wire value 4. -/
inductive OpType where
  | value
  | rcChannel
  | flight
  | flightMode
  | lc
  | gvar
  | pid
  | waypoints
deriving DecidableEq, Repr

/-- Frozen integer values of `OPERAND_TYPE`. -/
def OpType.toInt : OpType → Int
  | .value => 0
  | .rcChannel => 1
  | .flight => 2
  | .flightMode => 3
  | .lc => 4
  | .gvar => 5
  | .pid => 6
  | .waypoints => 7

/-- The decompiler revision under verification reads `OPERAND_TYPE.LC`, a key
that inav_constants.js does not define (it was renamed to `GET_LC_VALUE`); the
property read therefore yields `undefined`.  We model the absent key as `none`
so that the `case OPERAND_TYPE.LC:` arm of `decompileOperand` compares an
integer against `undefined` and can never match. -/
def OPERAND_TYPE_LC : Option Int := none

namespace OPERATION

abbrev TRUE : Int := 0
abbrev EQUAL : Int := 1
abbrev GREATER_THAN : Int := 2
abbrev LOWER_THAN : Int := 3
abbrev LOW : Int := 4
abbrev MID : Int := 5
abbrev HIGH : Int := 6
abbrev AND : Int := 7
abbrev OR : Int := 8
abbrev XOR : Int := 9
abbrev NAND : Int := 10
abbrev NOR : Int := 11
abbrev NOT : Int := 12
abbrev STICKY : Int := 13
abbrev ADD : Int := 14
abbrev SUB : Int := 15
abbrev MUL : Int := 16
abbrev DIV : Int := 17
abbrev GVAR_SET : Int := 18
abbrev GVAR_INC : Int := 19
abbrev GVAR_DEC : Int := 20
abbrev PORT_SET : Int := 21
abbrev OVERRIDE_ARMING_SAFETY : Int := 22
abbrev OVERRIDE_THROTTLE_SCALE : Int := 23
abbrev SWAP_ROLL_YAW : Int := 24
abbrev SET_VTX_POWER_LEVEL : Int := 25
abbrev INVERT_ROLL : Int := 26
abbrev INVERT_PITCH : Int := 27
abbrev INVERT_YAW : Int := 28
abbrev OVERRIDE_THROTTLE : Int := 29
abbrev SET_VTX_BAND : Int := 30
abbrev SET_VTX_CHANNEL : Int := 31
abbrev SET_OSD_LAYOUT : Int := 32
abbrev SIN : Int := 33
abbrev COS : Int := 34
abbrev TAN : Int := 35
abbrev MAP_INPUT : Int := 36
abbrev MAP_OUTPUT : Int := 37
abbrev RC_CHANNEL_OVERRIDE : Int := 38
abbrev SET_HEADING_TARGET : Int := 39
abbrev MODULUS : Int := 40
abbrev LOITER_OVERRIDE : Int := 41
abbrev SET_PROFILE : Int := 42
abbrev MIN : Int := 43
abbrev MAX : Int := 44
abbrev FLIGHT_AXIS_ANGLE_OVERRIDE : Int := 45
abbrev FLIGHT_AXIS_RATE_OVERRIDE : Int := 46
abbrev EDGE : Int := 47
abbrev DELAY : Int := 48
abbrev TIMER : Int := 49
abbrev DELTA : Int := 50
abbrev APPROX_EQUAL : Int := 51
abbrev LED_PIN_PWM : Int := 52
abbrev DISABLE_GPS_FIX : Int := 53
abbrev RESET_MAG_CALIBRATION : Int := 54
abbrev SET_GIMBAL_SENSITIVITY : Int := 55
abbrev OVERRIDE_MIN_GROUND_SPEED : Int := 56

end OPERATION

/-- The `OPERATION` object of inav_constants.js has no `MOD` key: the modulus
member is spelled `MODULUS` (value 40, the file's own comment: `a % b (was
MOD: 18)`).  Both revisions of codegen.js nevertheless read `OPERATION.MOD`,
which therefore yields `undefined`; we model the absent key as `none`. -/
def OPERATION_MOD : Option Int := none

/-! ## `inav_constants.js`: name tables -/

/-- `FLIGHT_PARAM_NAMES` (inav_constants.js lines 226-277), keyed by the
`FLIGHT_PARAM` codes. -/
def FLIGHT_PARAM_NAMES : List (Int × String) :=
  [(0, "armTimer"), (1, "homeDistance"), (2, "tripDistance"), (3, "rssi"),
   (4, "vbat"), (5, "cellVoltage"), (6, "current"), (7, "mahDrawn"),
   (8, "gpsNumSat"), (9, "groundSpeed"), (10, "speed3d"), (11, "airSpeed"),
   (12, "altitude"), (13, "verticalSpeed"), (14, "throttlePos"), (15, "roll"),
   (16, "pitch"), (17, "isArmed"), (18, "isAutolaunch"), (19, "isAltitudeControl"),
   (20, "isPositionControl"), (21, "isEmergencyLanding"), (22, "isRth"),
   (23, "isLanding"), (24, "isFailsafe"), (25, "stabilizedRoll"),
   (26, "stabilizedPitch"), (27, "stabilizedYaw"), (28, "homeDistance3d"),
   (29, "crsfLqUplink"), (30, "crsfSnr"), (31, "gpsValid"), (32, "loiterRadius"),
   (33, "activeProfile"), (34, "battCells"), (35, "aglStatus"), (36, "agl"),
   (37, "rangefinderRaw"), (38, "activeMixerProfile"), (39, "mixerTransitionActive"),
   (40, "yaw"), (41, "fwLandState"), (42, "battProfile"), (43, "flownLoiterRadius"),
   (44, "crsfLqDownlink"), (45, "crsfRssiDbm"), (46, "minGroundSpeed"),
   (47, "horizontalWindSpeed"), (48, "windDirection"), (49, "relativeWindOffset")]

/-- `getFlightParamName` (inav_constants.js lines 348-350). -/
def getFlightParamName (paramId : Int) : String :=
  match lookupInt FLIGHT_PARAM_NAMES paramId with
  | some n => n
  | none => "unknown_param_" ++ toString paramId

/-- `OPERATION_NAMES` (inav_constants.js lines 283-341). -/
def OPERATION_NAMES : List (Int × String) :=
  [(0, "TRUE"), (1, "EQUAL"), (2, "GREATER_THAN"), (3, "LOWER_THAN"),
   (4, "LOW"), (5, "MID"), (6, "HIGH"), (7, "AND"), (8, "OR"), (9, "XOR"),
   (10, "NAND"), (11, "NOR"), (12, "NOT"), (13, "STICKY"), (14, "ADD"),
   (15, "SUB"), (16, "MUL"), (17, "DIV"), (18, "GVAR_SET"), (19, "GVAR_INC"),
   (20, "GVAR_DEC"), (21, "PORT_SET"), (22, "OVERRIDE_ARMING_SAFETY"),
   (23, "OVERRIDE_THROTTLE_SCALE"), (24, "SWAP_ROLL_YAW"),
   (25, "SET_VTX_POWER_LEVEL"), (26, "INVERT_ROLL"), (27, "INVERT_PITCH"),
   (28, "INVERT_YAW"), (29, "OVERRIDE_THROTTLE"), (30, "SET_VTX_BAND"),
   (31, "SET_VTX_CHANNEL"), (32, "SET_OSD_LAYOUT"), (33, "SIN"), (34, "COS"),
   (35, "TAN"), (36, "MAP_INPUT"), (37, "MAP_OUTPUT"), (38, "RC_CHANNEL_OVERRIDE"),
   (39, "SET_HEADING_TARGET"), (40, "MODULUS"), (41, "LOITER_OVERRIDE"),
   (42, "SET_PROFILE"), (43, "MIN"), (44, "MAX"),
   (45, "FLIGHT_AXIS_ANGLE_OVERRIDE"), (46, "FLIGHT_AXIS_RATE_OVERRIDE"),
   (47, "EDGE"), (48, "DELAY"), (49, "TIMER"), (50, "DELTA"),
   (51, "APPROX_EQUAL"), (52, "LED_PIN_PWM"), (53, "DISABLE_GPS_FIX"),
   (54, "RESET_MAG_CALIBRATION"), (55, "SET_GIMBAL_SENSITIVITY"),
   (56, "OVERRIDE_MIN_GROUND_SPEED")]

/-- `getOperationName` (inav_constants.js lines 357-359). -/
def getOperationName (operationId : Int) : String :=
  match lookupInt OPERATION_NAMES operationId with
  | some n => n
  | none => "unknown_operation_" ++ toString operationId

/-- The `FLIGHT_MODE` table (inav_constants.js lines 166-184) with the
camel-case names assigned in the decompiler constructor (`flightModeNames`). -/
def flightModeNames : List (Int × String) :=
  [(0, "failsafe"), (1, "manual"), (2, "rth"), (3, "poshold"), (4, "cruise"),
   (5, "althold"), (6, "angle"), (7, "horizon"), (8, "air"), (9, "user1"),
   (10, "user2"), (11, "courseHold"), (12, "user3"), (13, "user4"), (14, "acro"),
   (15, "waypointMission"), (16, "anglehold")]

/-! ## Instruction records and generator state

A `logic` CLI command interpolates nine integers after the keyword; the
generator only ever pushes strings of that template (codegen.js pushes
`logic (slot) (enabled) (activator) (op) (Atype) (Avalue) (Btype) (Bvalue) (flags)`),
so a command is embedded as the record of its nine fields plus the rendering
function `renderCommand` that produces the exact CLI line. -/

/-- One operand pair of an instruction record. -/
structure Operand where
  ty : OpType
  val : Int
deriving DecidableEq, Repr

/-- One emitted instruction record (one `logic` CLI line). -/
structure Command where
  slot : Nat
  enabled : Int
  act : Int
  op : Int
  opA : Operand
  opB : Operand
  flags : Int
deriving DecidableEq, Repr

/-- The nine integer fields of a command, in the order they are interpolated
into the CLI line. -/
def Command.fields (c : Command) : List Int :=
  [(c.slot : Int), c.enabled, c.act, c.op,
   c.opA.ty.toInt, c.opA.val, c.opB.ty.toInt, c.opB.val, c.flags]

/-- The textual CLI line for a record: the keyword `logic` followed by the nine
space-separated integer fields, exactly the template-literal string pushed by
the generator. -/
def renderCommand (c : Command) : String :=
  sjoin (" ") (("logic") :: c.fields.map toString)

/-- Generator state: `this.lcIndex`, `this.commands`, the error list of
`this.errorHandler`, and the `conditionLcIndex` values that the generator
writes onto statement AST nodes for common-subexpression reuse (keyed by a
statement identity, standing for JavaScript object identity). -/
structure GenState where
  lcIndex : Nat
  commands : List Command
  errors : List String
  cseMap : List (Nat × Nat)
deriving DecidableEq, Repr

/-- The state at the top of `generate` (fresh indices, empty buffers). -/
def initState : GenState := ⟨0, [], [], []⟩

/-- `this.commands.push(logic (lcIndex) 1 (act) ...); this.lcIndex++` —
every push in the generator appends a record at slot `lcIndex` with
`enabled = 1` and `flags = 0` and then increments the slot cursor. -/
def emit (s : GenState) (act : Int) (op : Int) (a b : Operand) : GenState :=
  { s with
    commands := s.commands ++ [⟨s.lcIndex, 1, act, op, a, b, 0⟩]
    lcIndex := s.lcIndex + 1 }

/-- `this.errorHandler.addError(msg, ...)` (the single-quote characters that
the JavaScript messages place around interpolated names are elided). -/
def addError (s : GenState) (msg : String) : GenState :=
  { s with errors := s.errors ++ [msg] }

/-! ## The operand mapping of the API catalog

Modelled from the spec: the API catalog (`api/definitions/index.js`, consumed
by `buildOperandMapping`) is not under src/; only its two consumers are.  The
read-operand part of the mapping is reconstructed from the spec (§3.1, §3.2,
§6.3: catalog-backed identifier path ↦ its declared `(operand_type,
operand_value)` encoding) using the `FLIGHT_PARAM_NAMES` and `FLIGHT_MODE`
tables that inav_constants.js does ship: `flight.(name)` reads encode as
`(FLIGHT, code)` and `flight.mode.(name)` as `(FLIGHT_MODE, index)`. -/
def operandMappingList : List (String × Operand) :=
  FLIGHT_PARAM_NAMES.map (fun p => ("flight." ++ p.2, ⟨OpType.flight, p.1⟩))
  ++ flightModeNames.map (fun p => ("flight.mode." ++ p.2, ⟨OpType.flightMode, p.1⟩))

/-- `this.operandMapping[value]` of the code generator. -/
def operandMapping (path : String) : Option Operand :=
  lookupStr operandMappingList path

/-! ## AST shapes consumed by the code generator

The parser hands the generator plain JavaScript data: operand positions hold a
number, a boolean, an identifier-path string, an expression node, or null;
condition positions hold a condition node or null.  `Expr` embeds the dynamic
operand values (the `value` parameter of `getOperand`), `Cond` the condition
nodes of `generateCondition`, `Action`/`Assignment` the action objects of
`generateAction`, and `Stmt`/`EventHandler` the statements of
`generateStatement`. -/

/-- A dynamic value in operand position. `call` and `binop` are the expression
objects dispatched to `generateExpression` (a `CallExpression` carries its
callee path and argument list; `Math.abs` is the one supported callee);
`nullE` is JavaScript `null`/`undefined`, which falls through every `typeof`
test to the final dummy return. -/
inductive Expr where
  | num (n : Int)
  | boolv (b : Bool)
  | str (s : String)
  | call (callee : String) (args : List Expr)
  | binop (op : String) (left right : Expr)
  | nullE

/-- A condition node of `generateCondition`.  `null` is the JavaScript null
(children of logical/unary nodes and the `condition` field itself may be null;
`generateCondition` checks `if (!condition)`); `unknown` stands for any node
whose `type` tag is none of the five handled ones (switch default). -/
inductive Cond where
  | bin (op : String) (left right : Expr)
  | logical (op : String) (left right : Cond)
  | unary (arg : Cond)
  | member (value : Expr)
  | lit (value : Expr)
  | unknown (tag : String)
  | null

/-- An `Assignment` action object: `target`, `value`, and for arithmetic
right-hand sides the `operation`/`left`/`right` fields. -/
structure Assignment where
  target : String
  value : Expr
  operation : Option String
  left : Expr
  right : Expr

/-- An action in a handler body; `generateAction` returns immediately unless
`action.type === 'Assignment'`. -/
inductive Action where
  | assign (a : Assignment)
  | other (tag : String)

/-- An argument of the `edge`/`sticky`/`delay`/`timer`/`whenChanged` calls.
Modelled from the spec: the `ArrowFunctionHelper` module is not under src/;
the spec (§9, Arrow-function arguments) canonicalizes arrow arguments into
"an expression or block body"; a config argument carries its `duration`
property and a plain argument its literal value. -/
inductive Arg where
  | arrowExpr (cond : Cond)
  | config (duration : Option Int)
  | arrowBody (body : List Action)
  | lit (value : Expr)

/-- JavaScript falsiness of a condition value (`!condition`). -/
def Cond.isNull : Cond → Bool
  | .null => true
  | _ => false

/-- `arrowHelper.extractExpression`: the expression of an arrow-function
argument, null otherwise. -/
def extractExpression : Arg → Cond
  | .arrowExpr c => c
  | _ => .null

/-- `arrowHelper.extractDuration`: the `duration` property of a config-object
argument (0 when absent). -/
def extractDuration : Arg → Int
  | .config d => jsOrInt d 0
  | _ => 0

/-- `arrowHelper.extractBody`: the action list of an arrow-function block body. -/
def extractBody : Arg → List Action
  | .arrowBody b => b
  | _ => []

/-- `arrowHelper.extractValue`: the numeric value of a literal argument
(`none` models the `typeof x !== 'number'` outcome). -/
def extractValue : Arg → Option Int
  | .lit (.num n) => some n
  | _ => none

/-- `arrowHelper.extractIdentifier` on a call argument: the operand value the
argument denotes (used by `generateWhenChanged` before `getOperand`). -/
def extractIdentifierArg : Arg → Expr
  | .lit e => e
  | _ => .nullE

/-- The per-handler configuration object (`stmt.config`). -/
structure HandlerConfig where
  delay : Option Int

/-- An `EventHandler` statement.  `id` stands for the JavaScript object
identity of the statement node and `reuse` for the `reuseCondition` pointer to
another statement (the generator reads `reuseCondition.conditionLcIndex`, a
property it wrote onto that other node earlier; the embedding records those
writes in `GenState.cseMap` keyed by `id`). -/
structure EventHandler where
  handler : String
  config : HandlerConfig
  condition : Cond
  reuse : Option Nat
  invertReuse : Bool
  id : Nat
  body : List Action
  args : List Arg

/-- A top-level statement. -/
inductive Stmt where
  | eventHandler (h : EventHandler)
  | destructuring
  | letDeclaration
  | varDeclaration
  | unknown (tag : String)

/-- The AST handed to `generate` (`ast.statements`). -/
structure Program where
  statements : List Stmt

/-! ## codegen.js: operation lookups -/

/-- `getOperation` (comparison operators; unknown operators fall back to
`EQUAL` through `ops[operator] || OPERATION.EQUAL`). -/
def getOperation (operator : String) : Int :=
  jsOrInt
    (match operator with
     | "===" => some OPERATION.EQUAL
     | "==" => some OPERATION.EQUAL
     | ">" => some OPERATION.GREATER_THAN
     | "<" => some OPERATION.LOWER_THAN
     | ">=" => some OPERATION.GREATER_THAN
     | "<=" => some OPERATION.LOWER_THAN
     | "!==" => some OPERATION.NOT
     | "!=" => some OPERATION.NOT
     | _ => none)
    OPERATION.EQUAL

/-- `getArithmeticOperation`.  The `'%'` entry of the `ops` object is written
`OPERATION.MOD` in codegen.js, but the constants module defines no `MOD` key
(the member is `MODULUS`), so the entry holds `undefined` and the
`ops[operator] || OPERATION.ADD` fallback yields `ADD` for `'%'`. -/
def getArithmeticOperation (operator : String) : Int :=
  jsOrInt
    (match operator with
     | "+" => some OPERATION.ADD
     | "-" => some OPERATION.SUB
     | "*" => some OPERATION.MUL
     | "/" => some OPERATION.DIV
     | "%" => OPERATION_MOD
     | _ => none)
    OPERATION.ADD

/-- `getOverrideOperation`: the six writable override targets; any other
`override.*` target throws. -/
def getOverrideOperation (target : String) : Except String Int :=
  match target with
  | "override.throttleScale" => .ok OPERATION.OVERRIDE_THROTTLE_SCALE
  | "override.throttle" => .ok OPERATION.OVERRIDE_THROTTLE
  | "override.vtx.power" => .ok OPERATION.SET_VTX_POWER_LEVEL
  | "override.vtx.band" => .ok OPERATION.SET_VTX_BAND
  | "override.vtx.channel" => .ok OPERATION.SET_VTX_CHANNEL
  | "override.armSafety" => .ok OPERATION.OVERRIDE_ARMING_SAFETY
  | _ => .error ("Unknown override target: " ++ target)

/-! ## codegen.js: operand resolution -/

/-- `getOperand(value, activatorId = -1)`.  With `variableHandler = null` the
variable-resolution branch is skipped.  Identifier strings resolve to
`gvar`/`rc` operands (a digit-less `gvar[`/`rc[` string makes the JavaScript
`value.match(/\d+/)[0]` indexing throw) or to the catalog mapping, and unknown
identifiers record a diagnostic and resolve to the dummy literal `(VALUE, 0)`;
expression objects are dispatched to `generateExpression`, whose body is
inlined in the two object arms here so that the mutual recursion of the
JavaScript pair stays structural (the standalone `generateExpression` below is
the same dispatch).  The `extractIdentifier(x) || x` wrappers at the recursive
operand fetches of `generateExpression` forward the same operand either way
and are dropped. -/
def getOperand (value : Expr) (activatorId : Int) (s : GenState) :
    Except String (GenState × Operand) :=
  match value with
  | .num n => .ok (s, ⟨.value, n⟩)
  | .boolv b => .ok (s, ⟨.value, if b then 1 else 0⟩)
  | .str v =>
    if jsStartsWith v ("gvar[") then
      match firstDigits v with
      | some i => .ok (s, ⟨.gvar, i⟩)
      | none => .error ("TypeError: null has no element 0")
    else if jsStartsWith v ("rc[") then
      match firstDigits v with
      | some i => .ok (s, ⟨.rcChannel, i⟩)
      | none => .error ("TypeError: null has no element 0")
    else
      match operandMapping v with
      | some o => .ok (s, o)
      | none =>
        .ok (addError s ("Unknown operand " ++ v ++
              ". Available: flight.*, rc.*, gvar[0-7], waypoint.*, pid.*"),
             ⟨.value, 0⟩)
  | .call callee args =>
    -- generateExpression, case CallExpression: Math.abs via abs(x) = max(x, 0 - x)
    if callee = "Math.abs" then
      match args with
      | [a] =>
        match getOperand a activatorId s with
        | .error e => .error e
        | .ok (s1, arg) =>
          let negId := s1.lcIndex
          let s2 := emit s1 activatorId OPERATION.SUB ⟨.value, 0⟩ arg
          let absId := s2.lcIndex
          let s3 := emit s2 activatorId OPERATION.MAX arg ⟨.lc, negId⟩
          .ok (s3, ⟨.lc, absId⟩)
      | _ =>
        .ok (addError s ("Math.abs() requires exactly 1 argument. Got " ++
              toString args.length), ⟨.value, 0⟩)
    else
      .ok (addError s ("Unsupported function: " ++ callee ++
            "(). Supported: edge(), sticky(), delay(), timer(), whenChanged(), Math.abs()"),
           ⟨.value, 0⟩)
  | .binop op l r =>
    -- generateExpression, case BinaryExpression: compute then reference the slot
    match getOperand l activatorId s with
    | .error e => .error e
    | .ok (s1, left) =>
      match getOperand r activatorId s1 with
      | .error e => .error e
      | .ok (s2, right) =>
        let o := getArithmeticOperation op
        let resultId := s2.lcIndex
        let s3 := emit s2 activatorId o left right
        .ok (s3, ⟨.lc, resultId⟩)
  | .nullE => .ok (s, ⟨.value, 0⟩)

/-- `generateExpression(expr, activatorId)`: emits the compute records for a
`Math.abs` call or an arithmetic binary expression and returns an operand
referencing the result slot; any other node records a diagnostic and resolves
to the dummy literal.  The two expression arms coincide with `getOperand` on
the same node (where their bodies are inlined, see above). -/
def generateExpression (expr : Expr) (activatorId : Int) (s : GenState) :
    Except String (GenState × Operand) :=
  match expr with
  | .call callee args => getOperand (.call callee args) activatorId s
  | .binop op l r => getOperand (.binop op l r) activatorId s
  | _ =>
    .ok (addError s ("Unsupported expression type. Use arithmetic operators or supported functions"),
         ⟨.value, 0⟩)

/-! ## codegen.js: condition and action lowering -/

/-- `generateCondition(condition, activatorId)`: lowers a condition tree to
records and returns the slot index holding its boolean result.  A null
condition (`if (!condition)`) and the unsupported-type default return the
current `lcIndex` without emitting. -/
def generateCondition (condition : Cond) (activatorId : Int) (s : GenState) :
    Except String (GenState × Nat) :=
  match condition with
  | .null => .ok (s, s.lcIndex)
  | .bin op l r =>
    match getOperand l (-1) s with
    | .error e => .error e
    | .ok (s1, left) =>
      match getOperand r (-1) s1 with
      | .error e => .error e
      | .ok (s2, right) =>
        let resultIndex := s2.lcIndex
        .ok (emit s2 activatorId (getOperation op) left right, resultIndex)
  | .logical op l r =>
    match generateCondition l activatorId s with
    | .error e => .error e
    | .ok (s1, leftId) =>
      match generateCondition r activatorId s1 with
      | .error e => .error e
      | .ok (s2, rightId) =>
        let o := if op = "&&" then OPERATION.AND else OPERATION.OR
        let resultIndex := s2.lcIndex
        .ok (emit s2 activatorId o ⟨.lc, leftId⟩ ⟨.lc, rightId⟩, resultIndex)
  | .unary arg =>
    match generateCondition arg activatorId s with
    | .error e => .error e
    | .ok (s1, argId) =>
      let resultIndex := s1.lcIndex
      .ok (emit s1 activatorId OPERATION.NOT ⟨.lc, argId⟩ ⟨.value, 0⟩, resultIndex)
  | .member v =>
    match getOperand v (-1) s with
    | .error e => .error e
    | .ok (s1, operand) =>
      let resultIndex := s1.lcIndex
      .ok (emit s1 activatorId OPERATION.EQUAL operand ⟨.value, 1⟩, resultIndex)
  | .lit v =>
    let resultIndex := s.lcIndex
    -- `condition.value === true`
    match v with
    | .boolv true =>
      .ok (emit s activatorId OPERATION.TRUE ⟨.value, 0⟩ ⟨.value, 0⟩, resultIndex)
    | _ =>
      .ok (emit s activatorId OPERATION.NOT ⟨.value, 1⟩ ⟨.value, 0⟩, resultIndex)
  | .unknown tag =>
    .ok (addError s ("Unsupported condition type: " ++ tag ++
          ". Use comparison operators and logical operators"), s.lcIndex)

/-- `generateAction(action, activatorId)`: lowers one assignment.  gvar targets
use the increment/decrement short forms when the left (or, for `+`, the right)
arithmetic operand is the same register, otherwise compute-then-set; rc targets
validate the 0-17 range and emit `RC_CHANNEL_OVERRIDE` with the parsed channel
number; override targets emit their dedicated opcode; all other targets record
a diagnostic.  (With `variableHandler = null` the var-resolution branch before
the diagnostic is skipped.) -/
def generateAction (action : Action) (activatorId : Int) (s : GenState) :
    Except String (GenState × Unit) :=
  match action with
  | .other _ => .ok (s, ())
  | .assign a =>
    if jsStartsWith a.target ("gvar[") then
      match firstDigits a.target with
      | none => .error ("TypeError: null has no element 0")
      | some index =>
        match a.operation with
        | some op =>
          match getOperand a.left (-1) s with
          | .error e => .error e
          | .ok (s1, left) =>
            match getOperand a.right (-1) s1 with
            | .error e => .error e
            | .ok (s2, right) =>
              -- isLeftSameGvar / isRightSameGvar are inlined into the tests
              if op = "+" ∧ left.ty = .gvar ∧ left.val = (index : Int) then
                .ok (emit s2 activatorId OPERATION.GVAR_INC ⟨.value, index⟩ right, ())
              else if op = "-" ∧ left.ty = .gvar ∧ left.val = (index : Int) then
                .ok (emit s2 activatorId OPERATION.GVAR_DEC ⟨.value, index⟩ right, ())
              else if op = "+" ∧ right.ty = .gvar ∧ right.val = (index : Int) then
                .ok (emit s2 activatorId OPERATION.GVAR_INC ⟨.value, index⟩ left, ())
              else
                let o := getArithmeticOperation op
                let resultId := s2.lcIndex
                let s3 := emit s2 activatorId o left right
                .ok (emit s3 activatorId OPERATION.GVAR_SET ⟨.value, index⟩ ⟨.lc, resultId⟩, ())
        | none =>
          match getOperand a.value (-1) s with
          | .error e => .error e
          | .ok (s1, valueOperand) =>
            .ok (emit s1 activatorId OPERATION.GVAR_SET ⟨.value, index⟩ valueOperand, ())
    else if jsStartsWith a.target ("rc[") then
      match parseRc a.target with
      | none =>
        .ok (addError s ("Invalid RC channel syntax: " ++ a.target ++
              ". Expected format: rc[0] through rc[17]"), ())
      | some channel =>
        -- the JavaScript also tests channel < 0, unreachable for a digits parse
        if channel > 17 then
          .ok (addError s ("RC channel " ++ toString channel ++
                " out of range. INAV supports rc[0] through rc[17]"), ())
        else
          match getOperand a.value (-1) s with
          | .error e => .error e
          | .ok (s1, valueOperand) =>
            .ok (emit s1 activatorId OPERATION.RC_CHANNEL_OVERRIDE
                   ⟨.value, channel⟩ valueOperand, ())
    else if jsStartsWith a.target ("override.") then
      match getOverrideOperation a.target with
      | .error e => .error e
      | .ok operation =>
        match getOperand a.value (-1) s with
        | .error e => .error e
        | .ok (s1, valueOperand) =>
          .ok (emit s1 activatorId operation valueOperand ⟨.value, 0⟩, ())
    else
      .ok (addError s ("Cannot assign to " ++ a.target ++
            ". Only gvar[0-7], rc[0-17], and override.* are writable"), ())

/-- The `for (const action of ...) this.generateAction(action, id)` loops. -/
def generateActions (actions : List Action) (activatorId : Int) (s : GenState) :
    Except String (GenState × Unit) :=
  match actions with
  | [] => .ok (s, ())
  | a :: rest =>
    match generateAction a activatorId s with
    | .error e => .error e
    | .ok (s1, _) => generateActions rest activatorId s1

/-! ## codegen.js: event-handler lowering -/

/-- `generateOnArm`: condition `armTimer > 0` (operand `(FLIGHT, 0)` against
the literal 0), an `EDGE` record over that condition whose operand B is the
configured delay (`stmt.config.delay || 0`), then the body actions with the
`EDGE` slot as activator. -/
def generateOnArm (stmt : EventHandler) (s : GenState) : Except String (GenState × Unit) :=
  let delay := jsOrInt stmt.config.delay 0
  let conditionId := s.lcIndex
  let s1 := emit s (-1) OPERATION.GREATER_THAN ⟨.flight, 0⟩ ⟨.value, 0⟩
  let edgeId := s1.lcIndex
  let s2 := emit s1 (-1) OPERATION.EDGE ⟨.lc, conditionId⟩ ⟨.value, delay⟩
  generateActions stmt.body (edgeId : Int) s2

/-- `generateOnAlways`: a single always-true activator record, then the body
actions gated on it. -/
def generateOnAlways (stmt : EventHandler) (s : GenState) : Except String (GenState × Unit) :=
  let activatorId := s.lcIndex
  let s1 := emit s (-1) OPERATION.TRUE ⟨.value, 0⟩ ⟨.value, 0⟩
  generateActions stmt.body (activatorId : Int) s1

/-- `generateConditional`: lowers an `if` statement, with common-subexpression
reuse of a previously generated condition slot (`stmt.reuseCondition`), an
optional `NOT` record when the reuse is inverted, and a fallback to fresh
generation when the referenced statement has no stored slot. -/
def generateConditional (stmt : EventHandler) (s : GenState) : Except String (GenState × Unit) :=
  if stmt.condition.isNull then .ok (s, ())
  else
    match stmt.reuse with
    | some rid =>
      match mapLookup s.cseMap rid with
      | some cid =>
        if stmt.invertReuse then
          let notId := s.lcIndex
          let s1 := emit s (-1) OPERATION.NOT ⟨.lc, cid⟩ ⟨.value, 0⟩
          generateActions stmt.body (notId : Int) s1
        else
          generateActions stmt.body (cid : Int) s
      | none =>
        -- `conditionLcIndex === undefined`: fall back to a fresh condition
        match generateCondition stmt.condition (-1) s with
        | .error e => .error e
        | .ok (s1, conditionId) =>
          let s2 := { s1 with cseMap := (stmt.id, conditionId) :: s1.cseMap }
          generateActions stmt.body (conditionId : Int) s2
    | none =>
      match generateCondition stmt.condition (-1) s with
      | .error e => .error e
      | .ok (s1, conditionId) =>
        let s2 := { s1 with cseMap := (stmt.id, conditionId) :: s1.cseMap }
        generateActions stmt.body (conditionId : Int) s2

/-- `generateEdge`: `edge(() => condition, (duration config), () => actions)`. -/
def generateEdge (stmt : EventHandler) (s : GenState) : Except String (GenState × Unit) :=
  match stmt.args with
  | a0 :: a1 :: a2 :: _ =>
    if (extractExpression a0).isNull then
      .ok (addError s ("edge() argument 1 must be an arrow function"), ())
    else
      let duration := extractDuration a1
      match generateCondition (extractExpression a0) (-1) s with
      | .error e => .error e
      | .ok (s1, conditionId) =>
        let edgeId := s1.lcIndex
        let s2 := emit s1 (-1) OPERATION.EDGE ⟨.lc, conditionId⟩ ⟨.value, duration⟩
        generateActions (extractBody a2) (edgeId : Int) s2
  | _ => .ok (addError s ("edge() requires exactly 3 arguments (condition, duration, action)"), ())

/-- `generateSticky`: `sticky(() => on, () => off, () => actions)`. -/
def generateSticky (stmt : EventHandler) (s : GenState) : Except String (GenState × Unit) :=
  match stmt.args with
  | a0 :: a1 :: a2 :: _ =>
    if (extractExpression a0).isNull ∨ (extractExpression a1).isNull then
      .ok (addError s ("sticky() arguments 1 and 2 must be arrow functions"), ())
    else
      match generateCondition (extractExpression a0) (-1) s with
      | .error e => .error e
      | .ok (s1, onConditionId) =>
        match generateCondition (extractExpression a1) (-1) s1 with
        | .error e => .error e
        | .ok (s2, offConditionId) =>
          let stickyId := s2.lcIndex
          let s3 := emit s2 (-1) OPERATION.STICKY ⟨.lc, onConditionId⟩ ⟨.lc, offConditionId⟩
          generateActions (extractBody a2) (stickyId : Int) s3
  | _ => .ok (addError s ("sticky() requires exactly 3 arguments (onCondition, offCondition, action)"), ())

/-- `generateDelay`: `delay(() => condition, (duration config), () => actions)`. -/
def generateDelay (stmt : EventHandler) (s : GenState) : Except String (GenState × Unit) :=
  match stmt.args with
  | a0 :: a1 :: a2 :: _ =>
    if (extractExpression a0).isNull then
      .ok (addError s ("delay() argument 1 must be an arrow function"), ())
    else
      let duration := extractDuration a1
      match generateCondition (extractExpression a0) (-1) s with
      | .error e => .error e
      | .ok (s1, conditionId) =>
        let delayId := s1.lcIndex
        let s2 := emit s1 (-1) OPERATION.DELAY ⟨.lc, conditionId⟩ ⟨.value, duration⟩
        generateActions (extractBody a2) (delayId : Int) s2
  | _ => .ok (addError s ("delay() requires exactly 3 arguments (condition, duration, action)"), ())

/-- `generateTimer`: `timer(onMs, offMs, () => actions)` with positive numeric
literal durations. -/
def generateTimer (stmt : EventHandler) (s : GenState) : Except String (GenState × Unit) :=
  match stmt.args with
  | a0 :: a1 :: a2 :: _ =>
    match extractValue a0, extractValue a1 with
    | some onMs, some offMs =>
      if onMs ≤ 0 ∨ offMs ≤ 0 then
        .ok (addError s ("timer() durations must be positive"), ())
      else
        let timerId := s.lcIndex
        let s1 := emit s (-1) OPERATION.TIMER ⟨.value, onMs⟩ ⟨.value, offMs⟩
        generateActions (extractBody a2) (timerId : Int) s1
    | _, _ => .ok (addError s ("timer() durations must be numeric literals"), ())
  | _ => .ok (addError s ("timer() requires exactly 3 arguments (onMs, offMs, action)"), ())

/-- `generateWhenChanged`: `whenChanged(value, threshold, () => actions)` with
a positive numeric literal threshold; the monitored value resolves through
`getOperand` (which never returns a falsy result, so the JavaScript
`if (!valueOperand)` guard never fires). -/
def generateWhenChanged (stmt : EventHandler) (s : GenState) : Except String (GenState × Unit) :=
  match stmt.args with
  | a0 :: a1 :: a2 :: _ =>
    match extractValue a1 with
    | some threshold =>
      if threshold ≤ 0 then
        .ok (addError s ("whenChanged() threshold must be positive"), ())
      else
        match getOperand (extractIdentifierArg a0) (-1) s with
        | .error e => .error e
        | .ok (s1, valueOperand) =>
          let deltaId := s1.lcIndex
          let s2 := emit s1 (-1) OPERATION.DELTA valueOperand ⟨.value, threshold⟩
          generateActions (extractBody a2) (deltaId : Int) s2
    | none => .ok (addError s ("whenChanged() threshold must be a numeric literal"), ())
  | _ => .ok (addError s ("whenChanged() requires exactly 3 arguments (value, threshold, action)"), ())

/-- `generateEventHandler`: dispatch on the handler tag; unrecognized handlers
default to conditional lowering. -/
def generateEventHandler (stmt : EventHandler) (s : GenState) : Except String (GenState × Unit) :=
  if stmt.handler = "on.arm" then generateOnArm stmt s
  else if stmt.handler = "on.always" then generateOnAlways stmt s
  else if jsStartsWith stmt.handler ("if") then generateConditional stmt s
  else if stmt.handler = "edge" then generateEdge stmt s
  else if stmt.handler = "sticky" then generateSticky stmt s
  else if stmt.handler = "delay" then generateDelay stmt s
  else if stmt.handler = "timer" then generateTimer stmt s
  else if stmt.handler = "whenChanged" then generateWhenChanged stmt s
  else generateConditional stmt s

/-- `generateStatement`: event handlers are lowered, declarations are skipped,
anything else records a diagnostic. -/
def generateStatement (stmt : Stmt) (s : GenState) : Except String (GenState × Unit) :=
  match stmt with
  | .eventHandler h => generateEventHandler h s
  | .destructuring => .ok (s, ())
  | .letDeclaration => .ok (s, ())
  | .varDeclaration => .ok (s, ())
  | .unknown tag =>
    .ok (addError s ("Unsupported statement type: " ++ tag ++
          ". Only assignments and event handlers are supported"), ())

/-- The `for (const stmt of ast.statements)` loop of `generate`. -/
def generateStatements (stmts : List Stmt) (s : GenState) : Except String (GenState × Unit) :=
  match stmts with
  | [] => .ok (s, ())
  | st :: rest =>
    match generateStatement st s with
    | .error e => .error e
    | .ok (s1, _) => generateStatements rest s1

/-- `generate(ast)`: resets the state, lowers every statement, then
`errorHandler.throwIfErrors()` and returns the command list.  (The
`variableHandler` prelude is skipped because the handler is null; the typed
`Program` always has a statement list, so the `Invalid AST` throw is not
representable.)  No rule-table capacity check appears anywhere under src/. -/
def generate (ast : Program) : Except String (List Command) :=
  match generateStatements ast.statements initState with
  | .error e => .error e
  | .ok (s, _) =>
    if s.errors.isEmpty then .ok s.commands
    else .error (sjoin ("; ") s.errors)

/-- The string command list actually returned to callers: each record rendered
as its CLI line. -/
def generateStrings (ast : Program) : Except String (List String) :=
  match generate ast with
  | .error e => .error e
  | .ok cmds => .ok (cmds.map renderCommand)

/-! ## decompiler.js (second revision of the packed file)

Warnings (`this.warnings.push`) are threaded as an explicit list in call order.
The JavaScript `decompileOperand` and `decompileCondition` are mutually
recursive on paper: the `case OPERAND_TYPE.LC:` arm of `decompileOperand`
recursively decompiles the referenced condition.  Because inav_constants.js
defines no `LC` key (the member is `GET_LC_VALUE`), that arm compares the
integer operand type against `undefined` and never matches, so the recursion
is unreachable; the embedding bounds it with a fuel argument standing for the
finite JavaScript call stack, and no reachable result depends on the fuel. -/

/-- One logic-condition record as read back from the flight controller. -/
structure LC where
  index : Int
  enabled : Int
  activatorId : Int
  operation : Int
  operandAType : Int
  operandAValue : Int
  operandBType : Int
  operandBValue : Int
deriving DecidableEq, Repr

/-- A group formed by `groupConditions`: a root activator record (or none for
orphans) and the records gated on it. -/
structure Group where
  activator : Option LC
  actions : List LC
deriving DecidableEq, Repr

/-- The `stats` object of the decompile result. -/
structure DecompStats where
  total : Nat
  enabled : Nat
  groups : Nat
deriving DecidableEq, Repr

/-- The decompile result `{success, code, error?, warnings, stats}`. -/
structure DecompileResult where
  success : Bool
  code : String
  error : Option String
  warnings : List String
  stats : DecompStats
deriving DecidableEq, Repr

/-- `conditions.find(lc => lc.index === i)`. -/
def findLC : List LC → Int → Option LC
  | [], _ => none
  | lc :: rest, i => if lc.index = i then some lc else findLC rest i

/-- `getPropertyFromOperand(objectType, operandValue)`.  Modelled from the
spec: the reverse operand mapping is built from the API catalog
(`api/definitions`), which is not under src/; the flight half is reconstructed
from the `FLIGHT_PARAM_NAMES` table of inav_constants.js (§4.6 step 6 of the
spec: map operand pairs back through the catalog to a source path), and the
waypoint half is left empty so those reads take the documented fallback. -/
def getPropertyFromOperand (objectType : Int) (operandValue : Int) : Option String :=
  if objectType = 2 then
    (lookupInt FLIGHT_PARAM_NAMES operandValue).map (fun n => "flight." ++ n)
  else
    none

/-- `decompileOperand(type, value, allConditions)`, parameterized over the
condition decompiler used by the (unreachable) `OPERAND_TYPE.LC` arm. -/
def decompileOperandWith
    (recur : LC → Option (List LC) → List String → String × List String)
    (type value : Int) (allConditions : Option (List LC)) (ws : List String) :
    String × List String :=
  if type = 0 then (toString value, ws)
  else if type = 5 then ("gvar[" ++ toString value ++ "]", ws)
  else if type = 1 then ("rc[" ++ toString value ++ "]", ws)
  else if type = 2 ∨ type = 7 then
    match getPropertyFromOperand type value with
    | some prop => (prop, ws)
    | none =>
      let name := getFlightParamName value
      let objName := if type = 2 then "flight" else "waypoint"
      (objName ++ "." ++ name, ws)
  else if type = 3 then
    match lookupInt flightModeNames value with
    | some modeName => ("flight.mode." ++ modeName, ws)
    | none =>
      ("flight.mode[" ++ toString value ++ "] /* unknown mode */",
       ws ++ ["Unknown flight mode value " ++ toString value])
  else if OPERAND_TYPE_LC = some type then
    -- `case OPERAND_TYPE.LC:` — unreachable, see the section comment
    match allConditions with
    | some conditions =>
      match findLC conditions value with
      | some referencedLC => recur referencedLC allConditions ws
      | none => ("logicCondition[" ++ toString value ++ "]", ws)
    | none => ("logicCondition[" ++ toString value ++ "]", ws)
  else if type = 6 then
    ("/* PID[" ++ toString value ++ "] */",
     ws ++ ["PID operand (value " ++ toString value ++ ") is not supported in JavaScript API"])
  else
    ("/* unknown operand type " ++ toString type ++ ", value " ++ toString value ++ " */",
     ws ++ ["Unknown operand type " ++ toString type])

/-- `decompileCondition(lc, allConditions)`: both operands are decompiled
first (accumulating their warnings), then the operation selects the rendered
expression; unknown operations warn and render as `true`. -/
def decompileCondition : Nat → LC → Option (List LC) → List String → String × List String
  | 0, _, _, ws => ("true", ws)
  | fuel + 1, lc, allConditions, ws =>
    let lres := decompileOperandWith (decompileCondition fuel)
      lc.operandAType lc.operandAValue allConditions ws
    let left := lres.1
    let rres := decompileOperandWith (decompileCondition fuel)
      lc.operandBType lc.operandBValue allConditions lres.2
    let right := rres.1
    let ws2 := rres.2
    if lc.operation = OPERATION.TRUE then ("true", ws2)
    else if lc.operation = OPERATION.EQUAL then (left ++ " === " ++ right, ws2)
    else if lc.operation = OPERATION.GREATER_THAN then (left ++ " > " ++ right, ws2)
    else if lc.operation = OPERATION.LOWER_THAN then (left ++ " < " ++ right, ws2)
    else if lc.operation = OPERATION.LOW then (left ++ ".low", ws2)
    else if lc.operation = OPERATION.MID then (left ++ ".mid", ws2)
    else if lc.operation = OPERATION.HIGH then (left ++ ".high", ws2)
    else if lc.operation = OPERATION.AND then (left ++ " && " ++ right, ws2)
    else if lc.operation = OPERATION.OR then (left ++ " || " ++ right, ws2)
    else if lc.operation = OPERATION.NOT then ("!" ++ left, ws2)
    else if lc.operation = OPERATION.XOR then
      ("((" ++ left ++ ") ? !(" ++ right ++ ") : (" ++ right ++ "))", ws2)
    else if lc.operation = OPERATION.NAND then ("!(" ++ left ++ " && " ++ right ++ ")", ws2)
    else if lc.operation = OPERATION.NOR then ("!(" ++ left ++ " || " ++ right ++ ")", ws2)
    else if lc.operation = OPERATION.APPROX_EQUAL then
      (left ++ " === " ++ right,
       ws2 ++ ["APPROX_EQUAL operation decompiled as === (1% tolerance not preserved)"])
    else if lc.operation = OPERATION.EDGE then
      (left ++ " /* edge with duration " ++ right ++ "ms */", ws2)
    else if lc.operation = OPERATION.STICKY then
      (left ++ " /* sticky (on: " ++ left ++ ", off: " ++ right ++ ") */", ws2)
    else if lc.operation = OPERATION.DELAY then
      (left ++ " /* delay " ++ right ++ "ms */", ws2)
    else if lc.operation = OPERATION.ADD then ("(" ++ left ++ " + " ++ right ++ ")", ws2)
    else if lc.operation = OPERATION.SUB then ("(" ++ left ++ " - " ++ right ++ ")", ws2)
    else if lc.operation = OPERATION.MUL then ("(" ++ left ++ " * " ++ right ++ ")", ws2)
    else if lc.operation = OPERATION.DIV then ("(" ++ left ++ " / " ++ right ++ ")", ws2)
    else if lc.operation = OPERATION.MODULUS then ("(" ++ left ++ " % " ++ right ++ ")", ws2)
    else if lc.operation = OPERATION.MIN then ("Math.min(" ++ left ++ ", " ++ right ++ ")", ws2)
    else if lc.operation = OPERATION.MAX then ("Math.max(" ++ left ++ ", " ++ right ++ ")", ws2)
    else if lc.operation = OPERATION.SIN then
      (if right = "0" then "(Math.sin(" ++ left ++ " * Math.PI / 180) * 500)"
       else "(Math.sin(" ++ left ++ " * Math.PI / 180) * " ++ right ++ ")", ws2)
    else if lc.operation = OPERATION.COS then
      (if right = "0" then "(Math.cos(" ++ left ++ " * Math.PI / 180) * 500)"
       else "(Math.cos(" ++ left ++ " * Math.PI / 180) * " ++ right ++ ")", ws2)
    else if lc.operation = OPERATION.TAN then
      (if right = "0" then "(Math.tan(" ++ left ++ " * Math.PI / 180) * 500)"
       else "(Math.tan(" ++ left ++ " * Math.PI / 180) * " ++ right ++ ")", ws2)
    else if lc.operation = OPERATION.MAP_INPUT then
      ("Math.min(1000, Math.max(0, Math.round(" ++ left ++ " * 1000 / " ++ right ++ ")))", ws2)
    else if lc.operation = OPERATION.MAP_OUTPUT then
      ("Math.min(" ++ right ++ ", Math.max(0, Math.round(" ++ left ++ " * " ++ right ++ " / 1000)))", ws2)
    else if lc.operation = OPERATION.TIMER then
      ("/* timer(" ++ left ++ "ms ON, " ++ right ++ "ms OFF) */ true", ws2)
    else if lc.operation = OPERATION.DELTA then
      ("/* delta(" ++ left ++ ", threshold " ++ right ++ ") */ true", ws2)
    else
      ("true",
       ws2 ++ ["Unknown operation " ++ toString lc.operation ++ " (" ++
               getOperationName lc.operation ++ ") in condition"])

/-- `decompileOperand(type, value, allConditions)` with the standard recursive
resolution (bounded by fuel; see the section comment). -/
def decompileOperand (fuel : Nat) (type value : Int) (allConditions : Option (List LC))
    (ws : List String) : String × List String :=
  decompileOperandWith (decompileCondition fuel) type value allConditions ws

/-- `decompileAction(lc, allConditions)`: operand B is decompiled first, then
the operation selects the statement; an unknown operation warns and renders as
a placeholder comment naming the operation. -/
def decompileAction (fuel : Nat) (lc : LC) (allConditions : Option (List LC))
    (ws : List String) : String × List String :=
  let vres := decompileOperand fuel lc.operandBType lc.operandBValue allConditions ws
  let value := vres.1
  let ws1 := vres.2
  if lc.operation = OPERATION.GVAR_SET then
    ("gvar[" ++ toString lc.operandAValue ++ "] = " ++ value ++ ";", ws1)
  else if lc.operation = OPERATION.GVAR_INC then
    ("gvar[" ++ toString lc.operandAValue ++ "] = gvar[" ++ toString lc.operandAValue ++
     "] + " ++ value ++ ";", ws1)
  else if lc.operation = OPERATION.GVAR_DEC then
    ("gvar[" ++ toString lc.operandAValue ++ "] = gvar[" ++ toString lc.operandAValue ++
     "] - " ++ value ++ ";", ws1)
  else if lc.operation = OPERATION.OVERRIDE_THROTTLE_SCALE then
    ("override.throttleScale = " ++ value ++ ";", ws1)
  else if lc.operation = OPERATION.OVERRIDE_THROTTLE then
    ("override.throttle = " ++ value ++ ";", ws1)
  else if lc.operation = OPERATION.SET_VTX_POWER_LEVEL then
    ("override.vtx.power = " ++ value ++ ";", ws1)
  else if lc.operation = OPERATION.SET_VTX_BAND then
    ("override.vtx.band = " ++ value ++ ";", ws1)
  else if lc.operation = OPERATION.SET_VTX_CHANNEL then
    ("override.vtx.channel = " ++ value ++ ";", ws1)
  else if lc.operation = OPERATION.OVERRIDE_ARMING_SAFETY then
    ("override.armSafety = true;", ws1)
  else if lc.operation = OPERATION.SET_OSD_LAYOUT then
    ("override.osdLayout = " ++ value ++ ";", ws1)
  else if lc.operation = OPERATION.RC_CHANNEL_OVERRIDE then
    ("rc[" ++ toString lc.operandAValue ++ "] = " ++ value ++ ";", ws1)
  else if lc.operation = OPERATION.LOITER_OVERRIDE then
    ("override.loiterRadius = " ++ value ++ ";", ws1)
  else if lc.operation = OPERATION.OVERRIDE_MIN_GROUND_SPEED then
    ("override.minGroundSpeed = " ++ value ++ ";", ws1)
  else if lc.operation = OPERATION.SWAP_ROLL_YAW then
    ("override.swapRollYaw = true;", ws1)
  else if lc.operation = OPERATION.INVERT_ROLL then
    ("override.invertRoll = true;", ws1)
  else if lc.operation = OPERATION.INVERT_PITCH then
    ("override.invertPitch = true;", ws1)
  else if lc.operation = OPERATION.INVERT_YAW then
    ("override.invertYaw = true;", ws1)
  else if lc.operation = OPERATION.SET_HEADING_TARGET then
    ("override.headingTarget = " ++ value ++ ";", ws1)
  else if lc.operation = OPERATION.SET_PROFILE then
    ("override.profile = " ++ value ++ ";", ws1)
  else if lc.operation = OPERATION.FLIGHT_AXIS_ANGLE_OVERRIDE then
    let axisName :=
      if lc.operandAValue = 0 then "roll"
      else if lc.operandAValue = 1 then "pitch"
      else if lc.operandAValue = 2 then "yaw"
      else toString lc.operandAValue
    ("override.flightAxis." ++ axisName ++ ".angle = " ++ value ++ ";",
     ws1 ++ ["FLIGHT_AXIS_ANGLE_OVERRIDE may need verification - check API syntax"])
  else if lc.operation = OPERATION.FLIGHT_AXIS_RATE_OVERRIDE then
    let axisName :=
      if lc.operandAValue = 0 then "roll"
      else if lc.operandAValue = 1 then "pitch"
      else if lc.operandAValue = 2 then "yaw"
      else toString lc.operandAValue
    ("override.flightAxis." ++ axisName ++ ".rate = " ++ value ++ ";",
     ws1 ++ ["FLIGHT_AXIS_RATE_OVERRIDE may need verification - check API syntax"])
  else if lc.operation = OPERATION.SET_GIMBAL_SENSITIVITY then
    ("override.gimbalSensitivity = " ++ value ++ ";", ws1)
  else if lc.operation = OPERATION.LED_PIN_PWM then
    ("override.ledPin(" ++ toString lc.operandAValue ++ ", " ++ value ++ ");",
     ws1 ++ ["LED_PIN_PWM may need verification - check API syntax"])
  else if lc.operation = OPERATION.PORT_SET then
    ("/* override.port(" ++ toString lc.operandAValue ++ ", " ++ value ++
     "); */ // PORT_SET - may not be supported",
     ws1 ++ ["PORT_SET may not be available in JavaScript API"])
  else if lc.operation = OPERATION.DISABLE_GPS_FIX then
    ("override.disableGpsFix = true;", ws1)
  else if lc.operation = OPERATION.RESET_MAG_CALIBRATION then
    ("override.resetMagCalibration = true;", ws1)
  else if lc.operation = OPERATION.ADD ∨ lc.operation = OPERATION.SUB ∨
          lc.operation = OPERATION.MUL ∨ lc.operation = OPERATION.DIV then
    let tres := decompileOperand fuel lc.operandAType lc.operandAValue allConditions ws1
    let target := tres.1
    let op :=
      if lc.operation = OPERATION.ADD then "+"
      else if lc.operation = OPERATION.SUB then "-"
      else if lc.operation = OPERATION.MUL then "*"
      else "/"
    (target ++ " = " ++ target ++ " " ++ op ++ " " ++ value ++ ";", tres.2)
  else
    ("// Unknown operation: " ++ getOperationName lc.operation,
     ws1 ++ ["Unknown operation " ++ toString lc.operation ++ " (" ++
             getOperationName lc.operation ++ ") in action"])

/-- `detectSpecialPattern(group, allConditions)`: recognizes
EDGE/STICKY/DELAY/TIMER/DELTA activators (in that order), decompiling the
referenced conditions.  A failed record lookup falls through to `null`. -/
def detectSpecialPattern (fuel : Nat) (group : Group) (allConditions : List LC)
    (ws : List String) : Option (String × List String) × List String :=
  match group.activator with
  | none => (none, ws)
  | some activator =>
    if activator.operation = OPERATION.EDGE then
      match findLC allConditions activator.operandAValue with
      | some conditionLC =>
        let cres := decompileCondition fuel conditionLC (some allConditions) ws
        (some ("edge", [cres.1, toString activator.operandBValue]), cres.2)
      | none => (none, ws)
    else if activator.operation = OPERATION.STICKY then
      match findLC allConditions activator.operandAValue,
            findLC allConditions activator.operandBValue with
      | some onLC, some offLC =>
        let onRes := decompileCondition fuel onLC (some allConditions) ws
        let offRes := decompileCondition fuel offLC (some allConditions) onRes.2
        (some ("sticky", [onRes.1, offRes.1]), offRes.2)
      | _, _ => (none, ws)
    else if activator.operation = OPERATION.DELAY then
      match findLC allConditions activator.operandAValue with
      | some conditionLC =>
        let cres := decompileCondition fuel conditionLC (some allConditions) ws
        (some ("delay", [cres.1, toString activator.operandBValue]), cres.2)
      | none => (none, ws)
    else if activator.operation = OPERATION.TIMER then
      (some ("timer", [toString activator.operandAValue, toString activator.operandBValue]), ws)
    else if activator.operation = OPERATION.DELTA then
      let vres := decompileOperand fuel activator.operandAType activator.operandAValue
        (some allConditions) ws
      (some ("whenChanged", [vres.1, toString activator.operandBValue]), vres.2)
    else
      (none, ws)

/-- The records referenced by EDGE/DELAY operand A and STICKY operands A and B
(first pass of `groupConditions`). -/
def referencedBySpecialOps (conditions : List LC) : List Int :=
  conditions.foldl
    (fun acc lc =>
      if lc.operation = OPERATION.EDGE ∨ lc.operation = OPERATION.DELAY then
        acc ++ [lc.operandAValue]
      else if lc.operation = OPERATION.STICKY then
        acc ++ [lc.operandAValue, lc.operandBValue]
      else acc)
    []

/-- `groupConditions(conditions)`: root records (`activatorId === -1`) become
groups with the records they gate, except roots referenced only by special
operations, which are folded into their pattern; leftovers become orphan
groups with a warning. -/
def groupConditions (conditions : List LC) (ws : List String) :
    List Group × List String :=
  let referenced := referencedBySpecialOps conditions
  let pass1 := conditions.foldl
    (fun (st : List Group × List Int) lc =>
      if lc.index ∈ st.2 then st
      else if lc.index ∈ referenced ∧ lc.activatorId = -1 then (st.1, st.2 ++ [lc.index])
      else if lc.activatorId = -1 then
        let acts := conditions.filter (fun a => a.activatorId = lc.index)
        (st.1 ++ [⟨some lc, acts⟩], st.2 ++ [lc.index] ++ acts.map LC.index)
      else st)
    ([], [])
  let pass2 := conditions.foldl
    (fun (st : List Group × List Int × List String) lc =>
      if lc.index ∈ st.2.1 then st
      else
        (st.1 ++ [⟨none, [lc]⟩], st.2.1 ++ [lc.index],
         st.2.2 ++ ["Logic condition " ++ toString lc.index ++ " has no valid activator"]))
    (pass1.1, pass1.2, ws)
  (pass2.1, pass2.2.2)

/-- `actions.map(a => decompileAction(a, allConditions))` with warning
threading, followed by `.filter(Boolean)` (empty strings are falsy). -/
def decompileActions (fuel : Nat) (actions : List LC) (allConditions : Option (List LC))
    (ws : List String) : List String × List String :=
  match actions with
  | [] => ([], ws)
  | a :: rest =>
    let r := decompileAction fuel a allConditions ws
    let rec' := decompileActions fuel rest allConditions r.2
    (((r.1 :: rec'.1).filter (fun s => s ≠ "")), rec'.2)

/-- `decompileGroup(group, allConditions)`: orphan actions are emitted bare; a
special pattern renders as its named construct (empty bodies warn and render
nothing); otherwise an `if` statement is emitted (with a placeholder body when
the group has no actions). -/
def decompileGroup (fuel : Nat) (group : Group) (allConditions : List LC)
    (ws : List String) : String × List String :=
  match group.activator with
  | none =>
    let r := decompileActions fuel group.actions (some allConditions) ws
    (sjoin "\n" r.1, r.2)
  | some activator =>
    let pat := detectSpecialPattern fuel group allConditions ws
    match pat.1 with
    | some p =>
      let r := decompileActions fuel group.actions (some allConditions) pat.2
      if r.1.isEmpty then
        ("", r.2 ++ [p.1 ++ "() at index " ++ toString activator.index ++ " has no actions"])
      else
        let body := sjoin "\n" (r.1.map (fun a => "  " ++ a))
        if p.1 = "edge" then
          ("edge(() => " ++ p.2.headD "" ++ ", \x7b duration: " ++ (p.2.drop 1).headD "" ++
           " \x7d, () => \x7b\n" ++ body ++ "\n\x7d);", r.2)
        else if p.1 = "sticky" then
          ("sticky(() => " ++ p.2.headD "" ++ ", () => " ++ (p.2.drop 1).headD "" ++
           ", () => \x7b\n" ++ body ++ "\n\x7d);", r.2)
        else if p.1 = "delay" then
          ("delay(() => " ++ p.2.headD "" ++ ", \x7b duration: " ++ (p.2.drop 1).headD "" ++
           " \x7d, () => \x7b\n" ++ body ++ "\n\x7d);", r.2)
        else if p.1 = "timer" then
          ("timer(" ++ p.2.headD "" ++ ", " ++ (p.2.drop 1).headD "" ++
           ", () => \x7b\n" ++ body ++ "\n\x7d);", r.2)
        else
          ("whenChanged(" ++ p.2.headD "" ++ ", " ++ (p.2.drop 1).headD "" ++
           ", () => \x7b\n" ++ body ++ "\n\x7d);", r.2)
    | none =>
      let cres := decompileCondition fuel activator (some allConditions) pat.2
      let r := decompileActions fuel group.actions (some allConditions) cres.2
      if r.1.isEmpty then
        ("// Empty condition\nif (" ++ cres.1 ++ ") \x7b\n  // No actions\n\x7d",
         r.2 ++ ["Condition at index " ++ toString activator.index ++ " has no actions"])
      else
        let body := sjoin "\n" (r.1.map (fun a => "  " ++ a))
        ("if (" ++ cres.1 ++ ") \x7b\n" ++ body ++ "\n\x7d", r.2)

/-- The enabled-filter loop of `decompile`: stop at the first clearly-unused
record (disabled, operation `TRUE`, no activator), keep enabled records. -/
def filterEnabled : List LC → List LC
  | [] => []
  | lc :: rest =>
    if lc.enabled = 0 ∧ lc.operation = 0 ∧ lc.activatorId = -1 then []
    else if lc.enabled ≠ 0 then lc :: filterEnabled rest
    else filterEnabled rest

/-- `generateBoilerplate(body)`: header comment, a destructuring line naming
the helpers the body uses, the accumulated warnings as comments, then the
body. -/
def generateBoilerplate (body : String) (warnings : List String) : String :=
  let imports :=
    ["flight", "override", "rc", "gvar"]
    ++ (if jsIncludes body "edge(" then ["edge"] else [])
    ++ (if jsIncludes body "sticky(" then ["sticky"] else [])
    ++ (if jsIncludes body "delay(" then ["delay"] else [])
    ++ (if jsIncludes body "timer(" then ["timer"] else [])
    ++ (if jsIncludes body "whenChanged(" then ["whenChanged"] else [])
    ++ (if jsIncludes body "waypoint." then ["waypoint"] else [])
  "// INAV JavaScript Programming\n// Decompiled from logic conditions\n\n"
  ++ "const \x7b " ++ sjoin ", " imports ++ " \x7d = inav;\n\n"
  ++ (if warnings.isEmpty then ""
      else "// Decompilation Warnings:\n" ++
           sjoin "" (warnings.map (fun w => "// - " ++ w ++ "\n")) ++ "\n")
  ++ body

/-- The `for (const group of groups)` loop of `decompile`: decompile each
group, keeping the non-empty code blocks. -/
def decompileGroups (fuel : Nat) (groups : List Group) (allConditions : List LC)
    (ws : List String) : List String × List String :=
  match groups with
  | [] => ([], ws)
  | g :: rest =>
    let r := decompileGroup fuel g allConditions ws
    let rec' := decompileGroups fuel rest allConditions r.2
    ((if r.1 ≠ "" then r.1 :: rec'.1 else rec'.1), rec'.2)

/-- The recursion-depth bound handed to the operand/condition decompilers; no
reachable result depends on it (see the section comment). -/
def decompFuel : Nat := 64

/-- `decompile(logicConditions)` on a well-formed record list (the JavaScript
guard for a null/non-array argument is outside the typed embedding).  Both
return paths produce `success: true`. -/
def decompile (logicConditions : List LC) : DecompileResult :=
  let enabled := filterEnabled logicConditions
  if enabled.isEmpty then
    let ws := ["No enabled logic conditions found"]
    { success := true
      code := generateBoilerplate "// No logic conditions found" ws
      error := none
      warnings := ws
      stats := ⟨logicConditions.length, 0, 0⟩ }
  else
    let gres := groupConditions enabled []
    let groups := gres.1
    let bres := decompileGroups decompFuel groups enabled gres.2
    let ws := bres.2
    { success := true
      code := generateBoilerplate (sjoin "\n\n" bres.1) ws
      error := none
      warnings := ws
      stats := ⟨logicConditions.length, enabled.length, groups.length⟩ }

end INAV

deriving instance DecidableEq for Except

namespace INAV

/-! ## Claim C1: rule-table overflow -/

/-- A program of 65 `on.always` handlers with empty bodies: each one lowers to
exactly one always-true record, so 65 records are emitted — one past the
64-slot engine cap. -/
def overflowProgram : Program :=
  ⟨List.replicate 65 (.eventHandler
    { handler := "on.always", config := ⟨none⟩, condition := .null,
      reuse := none, invertReuse := false, id := 0, body := [], args := [] })⟩

/-- A two-record table: slot 0 holds `armTimer > 0` and slot 1 an `AND` whose
operands both reference slot 0 with operand type 4 (`GET_LC_VALUE`). -/
def lcRefTable : List LC :=
  [⟨0, 1, -1, 2, 2, 0, 0, 0⟩, ⟨1, 1, -1, 7, 4, 0, 4, 0⟩]

/-- An operand value that is not an expression object (`generateExpression` is
never entered, so resolving it emits no record). -/
def simpleExpr : Expr → Bool
  | .num _ => true
  | .boolv _ => true
  | .str _ => true
  | .nullE => true
  | _ => false

/-- An action whose operand values are all simple. -/
def simpleAction : Action → Bool
  | .assign a => simpleExpr a.value && simpleExpr a.left && simpleExpr a.right
  | .other _ => true

/-- The operation codes carrying a case arm in `decompileCondition`. -/
def knownConditionOp (op : Int) : Bool :=
  op = OPERATION.TRUE ∨ op = OPERATION.EQUAL ∨ op = OPERATION.GREATER_THAN ∨
  op = OPERATION.LOWER_THAN ∨ op = OPERATION.LOW ∨ op = OPERATION.MID ∨
  op = OPERATION.HIGH ∨ op = OPERATION.AND ∨ op = OPERATION.OR ∨
  op = OPERATION.NOT ∨ op = OPERATION.XOR ∨ op = OPERATION.NAND ∨
  op = OPERATION.NOR ∨ op = OPERATION.APPROX_EQUAL ∨ op = OPERATION.EDGE ∨
  op = OPERATION.STICKY ∨ op = OPERATION.DELAY ∨ op = OPERATION.ADD ∨
  op = OPERATION.SUB ∨ op = OPERATION.MUL ∨ op = OPERATION.DIV ∨
  op = OPERATION.MODULUS ∨ op = OPERATION.MIN ∨ op = OPERATION.MAX ∨
  op = OPERATION.SIN ∨ op = OPERATION.COS ∨ op = OPERATION.TAN ∨
  op = OPERATION.MAP_INPUT ∨ op = OPERATION.MAP_OUTPUT ∨
  op = OPERATION.TIMER ∨ op = OPERATION.DELTA

/-- The operation codes carrying a case arm in `decompileAction`. -/
def knownActionOp (op : Int) : Bool :=
  op = OPERATION.GVAR_SET ∨ op = OPERATION.GVAR_INC ∨ op = OPERATION.GVAR_DEC ∨
  op = OPERATION.OVERRIDE_THROTTLE_SCALE ∨ op = OPERATION.OVERRIDE_THROTTLE ∨
  op = OPERATION.SET_VTX_POWER_LEVEL ∨ op = OPERATION.SET_VTX_BAND ∨
  op = OPERATION.SET_VTX_CHANNEL ∨ op = OPERATION.OVERRIDE_ARMING_SAFETY ∨
  op = OPERATION.SET_OSD_LAYOUT ∨ op = OPERATION.RC_CHANNEL_OVERRIDE ∨
  op = OPERATION.LOITER_OVERRIDE ∨ op = OPERATION.OVERRIDE_MIN_GROUND_SPEED ∨
  op = OPERATION.SWAP_ROLL_YAW ∨ op = OPERATION.INVERT_ROLL ∨
  op = OPERATION.INVERT_PITCH ∨ op = OPERATION.INVERT_YAW ∨
  op = OPERATION.SET_HEADING_TARGET ∨ op = OPERATION.SET_PROFILE ∨
  op = OPERATION.FLIGHT_AXIS_ANGLE_OVERRIDE ∨ op = OPERATION.FLIGHT_AXIS_RATE_OVERRIDE ∨
  op = OPERATION.SET_GIMBAL_SENSITIVITY ∨ op = OPERATION.LED_PIN_PWM ∨
  op = OPERATION.PORT_SET ∨ op = OPERATION.DISABLE_GPS_FIX ∨
  op = OPERATION.RESET_MAG_CALIBRATION ∨ op = OPERATION.ADD ∨
  op = OPERATION.SUB ∨ op = OPERATION.MUL ∨ op = OPERATION.DIV

/-! ## Claim C7: the emitted instruction list is a DAG

Well-formed condition trees: every condition node the generator will lower is
of a supported type and has non-null children.  (The counterexample below
shows why the restriction is needed: `generateCondition` returns the current
cursor — the slot of a record that does not exist yet — for null children and
unsupported nodes, and a logical node built over such children emits a record
whose `LC_RESULT` operands reference its own slot.) -/

/-- A condition tree every node of which is supported and non-null. -/
def wfCond : Cond → Bool
  | .bin _ _ _ => true
  | .logical _ l r => wfCond l && wfCond r
  | .unary a => wfCond a
  | .member _ => true
  | .lit _ => true
  | .unknown _ => false
  | .null => false

/-- A call argument whose condition, when present, is well-formed (a null
arrow expression is safely rejected by the handlers before lowering). -/
def wfArg : Arg → Bool
  | .arrowExpr c => c.isNull || wfCond c
  | _ => true

/-- An event handler whose condition (when non-null) and argument conditions
are well-formed. -/
def wfHandler (h : EventHandler) : Bool :=
  (h.condition.isNull || wfCond h.condition) && h.args.all wfArg

/-- A statement whose conditions are well-formed. -/
def wfStmt : Stmt → Bool
  | .eventHandler h => wfHandler h
  | _ => true

/-- A program whose conditions are well-formed. -/
def wfProgram (p : Program) : Bool := p.statements.all wfStmt

/-- Back-reference soundness of one record: an `LC_RESULT` operand references
a strictly smaller slot. -/
def refOK (c : Command) : Prop :=
  (c.opA.ty = .lc → 0 ≤ c.opA.val ∧ c.opA.val < (c.slot : Int)) ∧
  (c.opB.ty = .lc → 0 ≤ c.opB.val ∧ c.opB.val < (c.slot : Int))

/-- An operand an emission may safely use in state `s`: if it is an
`LC_RESULT` reference it points below the cursor. -/
def opndOK (s : GenState) (o : Operand) : Prop :=
  o.ty = .lc → 0 ≤ o.val ∧ o.val < (s.lcIndex : Int)

/-- The generator-state invariant: slots are dense from 0 in emission order,
every emitted record's references point backwards, and every stored
common-subexpression slot lies below the cursor. -/
def Inv (s : GenState) : Prop :=
  s.commands.map Command.slot = List.range s.lcIndex ∧
  (∀ c ∈ s.commands, refOK c) ∧
  (∀ p ∈ s.cseMap, p.2 < s.lcIndex)

/-- `c` holds an `LC_RESULT` operand naming `c'`'s slot. -/
def refersTo (c c' : Command) : Prop :=
  (c.opA.ty = .lc ∧ c.opA.val = (c'.slot : Int)) ∨
  (c.opB.ty = .lc ∧ c.opB.val = (c'.slot : Int))

/-- The reference relation restricted to an emitted list. -/
def refIn (cmds : List Command) (c c' : Command) : Prop :=
  c ∈ cmds ∧ c' ∈ cmds ∧ refersTo c c'

/-- The program whose lone `if` condition is a logical node over two null
children — the shape an `ArrowFunctionExpression` condition or an unsupported
comparison produces after the walker returns null. -/
def cexProgram : Program :=
  ⟨[.eventHandler
      { handler := "if_0", config := ⟨none⟩,
        condition := .logical ("&&") .null .null,
        reuse := none, invertReuse := false, id := 0,
        body := [], args := [] }]⟩

/-- The single record `cexProgram` lowers to: an `AND` whose operands both
name its own slot 0. -/
def cexCmd : Command :=
  ⟨0, 1, -1, OPERATION.AND, ⟨.lc, 0⟩, ⟨.lc, 0⟩, 0⟩

/-- A well-formed two-comparison conjunction with an override body, the
shape of the spec's compound-condition scenario. -/
def c7demo : Program :=
  ⟨[.eventHandler
      { handler := "if_0", config := ⟨none⟩,
        condition := .logical ("&&")
          (.bin (">") (.str ("flight.homeDistance")) (.num 100))
          (.bin (">") (.str ("rc[5]")) (.num 1500)),
        reuse := none, invertReuse := false, id := 0,
        body := [.assign ⟨"override.vtx.power", .num 3, none, .nullE, .nullE⟩],
        args := [] }]⟩

/-- The four records `c7demo` lowers to. -/
def c7cmds : List Command :=
  [⟨0, 1, -1, OPERATION.GREATER_THAN, ⟨.flight, 1⟩, ⟨.value, 100⟩, 0⟩,
   ⟨1, 1, -1, OPERATION.GREATER_THAN, ⟨.rcChannel, 5⟩, ⟨.value, 1500⟩, 0⟩,
   ⟨2, 1, -1, OPERATION.AND, ⟨.lc, 0⟩, ⟨.lc, 1⟩, 0⟩,
   ⟨3, 1, 2, OPERATION.SET_VTX_POWER_LEVEL, ⟨.value, 3⟩, ⟨.value, 0⟩, 0⟩]

/-- Claim C1 (code_bug evidence).  The spec requires a hard `table overflow`
error when more than 64 records are produced, but no capacity check exists
anywhere in the generator: `generate` returns all 65 commands of
`overflowProgram` with no error, despite 65 exceeding the 64-slot cap. -/
theorem claim_C1_overflow_not_detected :
    (generate overflowProgram).map List.length = .ok 65 ∧ 64 < 65 :=
  ⟨by decide, by decide⟩

/-! ## Claim C6: the `%` operator -/

/-- Claim C6 (code_bug evidence).  The spec freezes the modulus opcode at wire
value 40 (`MODULUS`), but `getArithmeticOperation` reads `OPERATION.MOD` — a
key the constants module renamed to `MODULUS` — so the lookup yields
`undefined` and the `|| OPERATION.ADD` fallback makes `'%'` lower to the
addition opcode 14: the compute record of `gvar[0] = gvar[1] % 3` carries
operation 14, not 40. -/
theorem claim_C6_modulus_lowers_to_add :
    getArithmeticOperation "%" = OPERATION.ADD ∧
    getArithmeticOperation "%" ≠ OPERATION.MODULUS ∧
    (generateAction (.assign ⟨"gvar[0]", .nullE, some "%", .str ("gvar[1]"), .num 3⟩)
        (-1) initState).map (fun r => r.1.commands.map Command.op) =
      .ok [OPERATION.ADD, OPERATION.GVAR_SET] :=
  ⟨by decide, by decide, by decide⟩

/-! ## Claim C8: recursive inlining of LC_RESULT operands in the decompiler -/

set_option maxRecDepth 40000 in
/-- Claim C8 (code_bug evidence).  The decompiler's recursive-inline branch is
written `case OPERAND_TYPE.LC:`, but the constants module defines only
`GET_LC_VALUE` for wire value 4, so the arm compares against `undefined` and
never matches: an operand of type 4 falls to the unknown-operand default,
rendering a placeholder comment and a warning instead of the recursively
inlined condition — the `AND` over two comparison slots does not decompile to
their conjunction. -/
theorem claim_C8_lc_operand_not_inlined :
    decompileOperand 64 4 0 (some lcRefTable) [] =
      ("/* unknown operand type 4, value 0 */", ["Unknown operand type 4"]) ∧
    OPERAND_TYPE_LC = none ∧ OpType.lc.toInt = 4 ∧
    jsIncludes (decompile lcRefTable).code
      "/* unknown operand type 4, value 0 */ && /* unknown operand type 4, value 0 */" = true :=
  ⟨by decide, by decide, by decide, by decide⟩

/-! ## Claim C3: register-increment and register-decrement short forms -/

/-- Claim C3.  An assignment `gvar[n] = gvar[n] + k` (left operand the same
register as the target, right operand a literal) emits exactly one record: the
register-increment opcode `GVAR_INC` with `operand_a = (VALUE, n)` and
`operand_b = (VALUE, k)` — no compute-then-set pair; the analogous statement
holds for `-` and `GVAR_DEC`. -/
theorem claim_C3_gvar_self_op_short_form
    (tgt lft : String) (n : Nat) (k : Int) (v : Expr) (op : String)
    (act : Int) (s : GenState)
    (htgt : jsStartsWith tgt ("gvar[") = true)
    (hdig : firstDigits tgt = some n)
    (hlft : jsStartsWith lft ("gvar[") = true)
    (hldig : firstDigits lft = some n)
    (hop : op = "+" ∨ op = "-") :
    generateAction (.assign ⟨tgt, v, some op, .str lft, .num k⟩) act s =
      .ok ({ s with
             commands := s.commands ++
               [⟨s.lcIndex, 1, act,
                 if op = "+" then OPERATION.GVAR_INC else OPERATION.GVAR_DEC,
                 ⟨.value, n⟩, ⟨.value, k⟩, 0⟩]
             lcIndex := s.lcIndex + 1 }, ()) := by
  rcases hop with h | h <;> subst h <;>
    simp [generateAction, getOperand, emit, htgt, hdig, hlft, hldig]

/-- Witness for C3 at `gvar[0] = gvar[0] + 1` and `gvar[2] = gvar[2] - 5`. -/
theorem claim_C3_witness :
    (jsStartsWith ("gvar[0]") ("gvar[") = true ∧ firstDigits ("gvar[0]") = some 0 ∧
     generateAction (.assign ⟨"gvar[0]", .nullE, some "+", .str ("gvar[0]"), .num 1⟩)
         (-1) initState =
       .ok ({ initState with
              commands := [⟨0, 1, -1, OPERATION.GVAR_INC, ⟨.value, 0⟩, ⟨.value, 1⟩, 0⟩]
              lcIndex := 1 }, ())) ∧
    (generateAction (.assign ⟨"gvar[2]", .nullE, some "-", .str ("gvar[2]"), .num 5⟩)
         (-1) initState =
       .ok ({ initState with
              commands := [⟨0, 1, -1, OPERATION.GVAR_DEC, ⟨.value, 2⟩, ⟨.value, 5⟩, 0⟩]
              lcIndex := 1 }, ())) := by
  refine ⟨⟨by decide, by decide, ?_⟩, ?_⟩
  · have h := claim_C3_gvar_self_op_short_form ("gvar[0]") ("gvar[0]") 0 1 .nullE "+"
      (-1) initState (by decide) (by decide) (by decide) (by decide) (Or.inl rfl)
    simpa using h
  · have h := claim_C3_gvar_self_op_short_form ("gvar[2]") ("gvar[2]") 2 5 .nullE "-"
      (-1) initState (by decide) (by decide) (by decide) (by decide) (Or.inr rfl)
    simpa using h

/-! ## Claim C5: rc channel indices -/

/-- Claim C5 counterexample.  The claim asserts that the 0-17 source index is
translated to the 1-18 on-device enumeration at lowering; but `rc[0] = 1500`
emits `operand_a = (VALUE, 0)` — the source index itself, not the on-device
channel 1 (inav_constants.js: channels are 1-18).  No translation happens. -/
theorem claim_C5_counterexample :
    (generateAction (.assign ⟨"rc[0]", .num 1500, none, .nullE, .nullE⟩) (-1) initState).map
        (fun r => r.1.commands) =
      .ok [⟨0, 1, -1, OPERATION.RC_CHANNEL_OVERRIDE, ⟨.value, 0⟩, ⟨.value, 1500⟩, 0⟩] ∧
    ¬((0 : Int) = 0 + 1) :=
  ⟨by decide, by decide⟩

/-- Claim C5 as amended.  `rc[i] = v` with `0 ≤ i ≤ 17` is accepted and emits
one `RC_CHANNEL_OVERRIDE` record whose `operand_a` is `(VALUE, i)` — the
source index unchanged, with no translation to the 1-18 on-device enumeration;
an index above 17 is rejected with a range diagnostic and no record. -/
theorem claim_C5_amended
    (tgt : String) (i : Nat) (v : Int) (act : Int) (s : GenState)
    (hng : jsStartsWith tgt ("gvar[") = false)
    (hrc : jsStartsWith tgt ("rc[") = true)
    (hpr : parseRc tgt = some i) :
    (i ≤ 17 →
      generateAction (.assign ⟨tgt, .num v, none, .nullE, .nullE⟩) act s =
        .ok ({ s with
               commands := s.commands ++
                 [⟨s.lcIndex, 1, act, OPERATION.RC_CHANNEL_OVERRIDE,
                   ⟨.value, i⟩, ⟨.value, v⟩, 0⟩]
               lcIndex := s.lcIndex + 1 }, ())) ∧
    (17 < i →
      generateAction (.assign ⟨tgt, .num v, none, .nullE, .nullE⟩) act s =
        .ok (addError s ("RC channel " ++ toString i ++
               " out of range. INAV supports rc[0] through rc[17]"), ())) := by
  constructor
  · intro hle
    simp [generateAction, getOperand, emit, hng, hrc, hpr, Nat.not_lt.mpr hle]
  · intro hgt
    simp [generateAction, hng, hrc, hpr, hgt]

/-- Witness for C5 at `rc[5] = 1500` (accepted, operand_a `(VALUE, 5)`) and
`rc[18] = 1500` (rejected). -/
theorem claim_C5_amended_witness :
    (parseRc ("rc[5]") = some 5 ∧
     generateAction (.assign ⟨"rc[5]", .num 1500, none, .nullE, .nullE⟩) (-1) initState =
       .ok ({ initState with
              commands := [⟨0, 1, -1, OPERATION.RC_CHANNEL_OVERRIDE, ⟨.value, 5⟩, ⟨.value, 1500⟩, 0⟩]
              lcIndex := 1 }, ())) ∧
    (parseRc ("rc[18]") = some 18 ∧
     generateAction (.assign ⟨"rc[18]", .num 1500, none, .nullE, .nullE⟩) (-1) initState =
       .ok (addError initState ("RC channel 18 out of range. INAV supports rc[0] through rc[17]"), ())) := by
  refine ⟨⟨by decide, ?_⟩, ⟨by decide, ?_⟩⟩
  · have h := (claim_C5_amended ("rc[5]") 5 1500 (-1) initState
      (by decide) (by decide) (by decide)).1 (by decide)
    simpa using h
  · have h := (claim_C5_amended ("rc[18]") 18 1500 (-1) initState
      (by decide) (by decide) (by decide)).2 (by decide)
    simpa using h

/-! ## Claim C10: unknown identifier operands resolve to the dummy literal -/

/-- Claim C10.  A string operand that is not of the `gvar[`/`rc[` forms and
not a catalog-backed path makes `getOperand` record a diagnostic and return
the dummy literal `(VALUE, 0)` — it does not throw — and the enclosing
instruction (here a comparison) is still emitted with the literal zero in that
operand position. -/
theorem claim_C10_unknown_operand_total
    (v : String) (act actC : Int) (s : GenState)
    (hg : jsStartsWith v ("gvar[") = false)
    (hr : jsStartsWith v ("rc[") = false)
    (hm : operandMapping v = none) :
    getOperand (.str v) act s =
      .ok (addError s ("Unknown operand " ++ v ++
             ". Available: flight.*, rc.*, gvar[0-7], waypoint.*, pid.*"),
           ⟨.value, 0⟩) ∧
    generateCondition (.bin (">") (.str v) (.num 5)) actC s =
      .ok ({ s with
             errors := s.errors ++ ["Unknown operand " ++ v ++
               ". Available: flight.*, rc.*, gvar[0-7], waypoint.*, pid.*"]
             commands := s.commands ++
               [⟨s.lcIndex, 1, actC, OPERATION.GREATER_THAN, ⟨.value, 0⟩, ⟨.value, 5⟩, 0⟩]
             lcIndex := s.lcIndex + 1 }, s.lcIndex) := by
  constructor
  · simp [getOperand, hg, hr, hm]
  · simp [generateCondition, getOperand, getOperation, emit, addError, jsOrInt,
      OPERATION.GREATER_THAN, OPERATION.EQUAL, hg, hr, hm]

/-- Witness for C10 at the unknown identifier `foo.bar`. -/
theorem claim_C10_witness :
    (jsStartsWith ("foo.bar") ("gvar[") = false ∧
     jsStartsWith ("foo.bar") ("rc[") = false ∧
     operandMapping ("foo.bar") = none) ∧
    getOperand (.str ("foo.bar")) (-1) initState =
      .ok (addError initState ("Unknown operand foo.bar" ++
             ". Available: flight.*, rc.*, gvar[0-7], waypoint.*, pid.*"),
           ⟨.value, 0⟩) := by
  refine ⟨⟨by decide, by decide, by decide⟩, ?_⟩
  have h := (claim_C10_unknown_operand_total ("foo.bar") (-1) (-1) initState
    (by decide) (by decide) (by decide)).1
  simpa using h

/-! ## Claim C2: shape of the on.arm lowering

Helper facts: a simple (non-expression) operand resolves without emitting, so
every record a body of simple assignments emits carries the activator slot the
action loop was called with. -/

theorem jsOrInt_some_zero (d : Int) : jsOrInt (some d) 0 = d := by
  simp only [jsOrInt]; split <;> omega

theorem emit_commands (s : GenState) (act op : Int) (a b : Operand) :
    (emit s act op a b).commands = s.commands ++ [⟨s.lcIndex, 1, act, op, a, b, 0⟩] := rfl

theorem emit_lcIndex (s : GenState) (act op : Int) (a b : Operand) :
    (emit s act op a b).lcIndex = s.lcIndex + 1 := rfl

/-- Resolving a simple operand changes at most the error buffer. -/
theorem getOperand_simple (e : Expr) (act : Int) (s s' : GenState) (o : Operand)
    (hs : simpleExpr e = true) (h : getOperand e act s = .ok (s', o)) :
    s'.commands = s.commands ∧ s'.lcIndex = s.lcIndex ∧ s'.cseMap = s.cseMap := by
  cases e <;> simp [simpleExpr] at hs <;> rw [getOperand] at h
  · cases h; exact ⟨rfl, rfl, rfl⟩
  · cases h; exact ⟨rfl, rfl, rfl⟩
  · -- string case: each branch leaves commands, lcIndex and cseMap unchanged
    split at h
    · split at h
      · cases h; exact ⟨rfl, rfl, rfl⟩
      · cases h
    · split at h
      · split at h
        · cases h; exact ⟨rfl, rfl, rfl⟩
        · cases h
      · split at h
        · cases h; exact ⟨rfl, rfl, rfl⟩
        · cases h; exact ⟨rfl, rfl, rfl⟩
  · cases h; exact ⟨rfl, rfl, rfl⟩

/-- Every record emitted by `generateAction` for a simple action carries the
activator slot it was called with, and records are only appended. -/
theorem generateAction_act (a : Action) (actId : Int) (s s' : GenState)
    (hs : simpleAction a = true) (h : generateAction a actId s = .ok (s', ())) :
    ∃ tail, s'.commands = s.commands ++ tail ∧ ∀ c ∈ tail, c.act = actId := by
  cases a with
  | other tag =>
    rw [generateAction] at h
    cases h
    exact ⟨[], by simp, by simp⟩
  | assign a =>
    rw [simpleAction] at hs
    simp only [Bool.and_eq_true] at hs
    obtain ⟨⟨hv, hl⟩, hr⟩ := hs
    rw [generateAction] at h
    split at h
    · -- gvar branch
      split at h
      · cases h
      · split at h
        · -- arithmetic
          split at h
          · cases h
          · rename_i s1 left hgl
            split at h
            · cases h
            · rename_i s2 right hgr
              obtain ⟨hc1, hi1, _⟩ := getOperand_simple _ _ _ _ _ hl hgl
              obtain ⟨hc2, hi2, _⟩ := getOperand_simple _ _ _ _ _ hr hgr
              split at h
              · cases h; exact ⟨_, by rw [emit_commands, hc2, hc1], by simp⟩
              · split at h
                · cases h; exact ⟨_, by rw [emit_commands, hc2, hc1], by simp⟩
                · split at h
                  · cases h; exact ⟨_, by rw [emit_commands, hc2, hc1], by simp⟩
                  · cases h
                    refine ⟨_, by rw [emit_commands, emit_commands, hc2, hc1,
                      List.append_assoc], ?_⟩
                    intro c hc
                    simp at hc
                    rcases hc with hc | hc <;> simp [hc]
        · -- simple assignment to gvar
          split at h
          · cases h
          · rename_i s1 valueOperand hgv
            obtain ⟨hc1, hi1, _⟩ := getOperand_simple _ _ _ _ _ hv hgv
            cases h; exact ⟨_, by rw [emit_commands, hc1], by simp⟩
    · split at h
      · -- rc branch
        split at h
        · cases h; exact ⟨[], by simp [addError], by simp⟩
        · split at h
          · cases h; exact ⟨[], by simp [addError], by simp⟩
          · split at h
            · cases h
            · rename_i s1 valueOperand hgv
              obtain ⟨hc1, hi1, _⟩ := getOperand_simple _ _ _ _ _ hv hgv
              cases h; exact ⟨_, by rw [emit_commands, hc1], by simp⟩
      · split at h
        · -- override branch
          split at h
          · cases h
          · split at h
            · cases h
            · rename_i s1 valueOperand hgv
              obtain ⟨hc1, hi1, _⟩ := getOperand_simple _ _ _ _ _ hv hgv
              cases h; exact ⟨_, by rw [emit_commands, hc1], by simp⟩
        · cases h; exact ⟨[], by simp [addError], by simp⟩

/-- The action loop over a body of simple actions only appends records, each
carrying the activator slot. -/
theorem generateActions_act (actions : List Action) (actId : Int) :
    ∀ (s s' : GenState), actions.all simpleAction = true →
    generateActions actions actId s = .ok (s', ()) →
    ∃ tail, s'.commands = s.commands ++ tail ∧ ∀ c ∈ tail, c.act = actId := by
  induction actions with
  | nil =>
    intro s s' _ h
    rw [generateActions] at h
    cases h
    exact ⟨[], by simp, by simp⟩
  | cons a rest ih =>
    intro s s' hs h
    simp only [List.all_cons, Bool.and_eq_true] at hs
    rw [generateActions] at h
    split at h
    · cases h
    · rename_i s1 _ ha
      obtain ⟨t1, hc1, hact1⟩ := generateAction_act a actId s s1 hs.1 ha
      obtain ⟨t2, hc2, hact2⟩ := ih s1 s' hs.2 h
      refine ⟨t1 ++ t2, by simp [hc2, hc1], ?_⟩
      intro c hc
      rcases List.mem_append.mp hc with hc | hc
      · exact hact1 c hc
      · exact hact2 c hc

/-- Claim C2.  For an `on.arm` handler with `config = (delay: d)` and a body of
simple assignments, the generator emits exactly: first a `GREATER_THAN` record
comparing the arm-timer flight operand `(FLIGHT, 0)` against the literal 0,
then an `EDGE` record whose operand A references the first record's slot and
whose operand B is the configured delay, and then the body's records, every
one carrying the `EDGE` record's slot as its activator. -/
theorem claim_C2_on_arm_shape
    (stmt : EventHandler) (d : Int) (s s' : GenState)
    (hd : stmt.config.delay = some d)
    (hb : stmt.body.all simpleAction = true)
    (h : generateOnArm stmt s = .ok (s', ())) :
    ∃ tail,
      s'.commands = s.commands ++
        [⟨s.lcIndex, 1, -1, OPERATION.GREATER_THAN, ⟨.flight, 0⟩, ⟨.value, 0⟩, 0⟩,
         ⟨s.lcIndex + 1, 1, -1, OPERATION.EDGE, ⟨.lc, (s.lcIndex : Int)⟩, ⟨.value, d⟩, 0⟩]
        ++ tail ∧
      ∀ c ∈ tail, c.act = ((s.lcIndex + 1 : Nat) : Int) := by
  rw [generateOnArm] at h
  obtain ⟨tail, hc, hact⟩ := generateActions_act _ _ _ _ hb h
  refine ⟨tail, ?_, hact⟩
  rw [hc]
  simp [emit, hd, jsOrInt_some_zero]

/-- Witness for C2: `on.arm((delay: 1), () => (gvar[0] = flight.yaw))` — the
spec's scenario 2 — produces exactly GT(armTimer, 0), EDGE(lc = 0,
duration = 1), and a register-set gated on the EDGE slot. -/
theorem claim_C2_witness :
    ((⟨"on.arm", ⟨some 1⟩, .null, none, false, 0,
       [.assign ⟨"gvar[0]", .str ("flight.yaw"), none, .nullE, .nullE⟩], []⟩ :
        EventHandler).config.delay = some 1) ∧
    (∃ tail,
      ({ lcIndex := 3
         commands :=
           [⟨0, 1, -1, OPERATION.GREATER_THAN, ⟨.flight, 0⟩, ⟨.value, 0⟩, 0⟩,
            ⟨1, 1, -1, OPERATION.EDGE, ⟨.lc, 0⟩, ⟨.value, 1⟩, 0⟩,
            ⟨2, 1, 1, OPERATION.GVAR_SET, ⟨.value, 0⟩, ⟨.flight, 40⟩, 0⟩]
         errors := [], cseMap := [] } : GenState).commands =
        initState.commands ++
          [⟨initState.lcIndex, 1, -1, OPERATION.GREATER_THAN, ⟨.flight, 0⟩, ⟨.value, 0⟩, 0⟩,
           ⟨initState.lcIndex + 1, 1, -1, OPERATION.EDGE, ⟨.lc, (initState.lcIndex : Int)⟩,
            ⟨.value, 1⟩, 0⟩]
          ++ tail ∧
      ∀ c ∈ tail, c.act = ((initState.lcIndex + 1 : Nat) : Int)) := by
  refine ⟨rfl, ?_⟩
  exact claim_C2_on_arm_shape
    ⟨"on.arm", ⟨some 1⟩, .null, none, false, 0,
     [.assign ⟨"gvar[0]", .str ("flight.yaw"), none, .nullE, .nullE⟩], []⟩
    1 initState _ rfl (by decide) (by decide)

/-! ## Claim C9: decompilation never aborts on unknown opcodes -/

/-- Claim C9.  `decompile` returns `success = true` on every record list; a
record carrying an operation code unknown to both switches (here with literal
operands, which decompile warning-free) makes `decompileAction` return the
placeholder comment naming the operation with a warning appended, and
`decompileCondition` the default expression `true` with a warning appended —
an unknown opcode never aborts decompilation. -/
theorem claim_C9_unknown_opcode_never_aborts
    (lcs : List LC) (lc : LC) (fuel : Nat) (ws : List String)
    (hA : knownActionOp lc.operation = false)
    (hC : knownConditionOp lc.operation = false)
    (hat : lc.operandAType = 0) (hbt : lc.operandBType = 0) :
    (decompile lcs).success = true ∧
    decompileAction fuel lc none ws =
      ("// Unknown operation: " ++ getOperationName lc.operation,
       ws ++ ["Unknown operation " ++ toString lc.operation ++ " (" ++
              getOperationName lc.operation ++ ") in action"]) ∧
    decompileCondition (fuel + 1) lc none ws =
      ("true",
       ws ++ ["Unknown operation " ++ toString lc.operation ++ " (" ++
              getOperationName lc.operation ++ ") in condition"]) := by
  simp only [knownActionOp, decide_eq_false_iff_not, not_or] at hA
  simp only [knownConditionOp, decide_eq_false_iff_not, not_or] at hC
  refine ⟨?_, ?_, ?_⟩
  · by_cases h : (filterEnabled lcs).isEmpty <;> simp [decompile, h]
  · simp only [decompileAction, decompileOperand, decompileOperandWith, hat, hbt]
    simp [hA]
  · simp only [decompileCondition, decompileOperand, decompileOperandWith, hat, hbt]
    simp [hC]

set_option maxRecDepth 40000 in
/-- Witness for C9: a table whose action record carries the unassigned
operation code 99. -/
theorem claim_C9_witness :
    (knownActionOp 99 = false ∧ knownConditionOp 99 = false) ∧
    (decompile [⟨0, 1, -1, 2, 2, 1, 0, 100⟩, ⟨1, 1, 0, 99, 0, 3, 0, 0⟩]).success = true ∧
    decompileAction 64 ⟨1, 1, 0, 99, 0, 3, 0, 0⟩ none [] =
      ("// Unknown operation: unknown_operation_99",
       ["Unknown operation 99 (unknown_operation_99) in action"]) := by
  refine ⟨⟨by decide, by decide⟩, ?_⟩
  have h := claim_C9_unknown_opcode_never_aborts
    [⟨0, 1, -1, 2, 2, 1, 0, 100⟩, ⟨1, 1, 0, 99, 0, 3, 0, 0⟩]
    ⟨1, 1, 0, 99, 0, 3, 0, 0⟩ 63 []
    (by decide) (by decide) (by decide) (by decide)
  exact ⟨h.1, by simpa using h.2.1⟩

/-! ## Claim C4: textual command format -/

/-- Claim C4.  Every command string the generator emits is the keyword `logic`
followed by the nine space-separated integer fields slot, enabled, activator,
op, A_type, A_value, B_type, B_value, flags (the embedding's `renderCommand`
mirrors the template literal, which interpolates only integers); each
operand-type field is a member of the 0-7 operand-type enumeration, and an
operand referencing another record's result carries the `LC_RESULT` integer 4
in its type field — never a non-integer token. -/
theorem claim_C4_command_format
    (ast : Program) (cmds : List Command) (c : Command)
    (_hg : generate ast = .ok cmds) (_hc : c ∈ cmds) :
    renderCommand c = sjoin (" ") (("logic") :: (c.fields.map toString)) ∧
    c.fields = [(c.slot : Int), c.enabled, c.act, c.op,
                c.opA.ty.toInt, c.opA.val, c.opB.ty.toInt, c.opB.val, c.flags] ∧
    c.fields.length = 9 ∧
    (0 ≤ c.opA.ty.toInt ∧ c.opA.ty.toInt ≤ 7) ∧
    (0 ≤ c.opB.ty.toInt ∧ c.opB.ty.toInt ≤ 7) ∧
    (c.opA.ty = .lc → c.opA.ty.toInt = 4) ∧
    (c.opB.ty = .lc → c.opB.ty.toInt = 4) := by
  refine ⟨rfl, rfl, rfl, ?_, ?_, ?_, ?_⟩
  · cases c.opA.ty <;> simp [OpType.toInt]
  · cases c.opB.ty <;> simp [OpType.toInt]
  · intro h; rw [h]; rfl
  · intro h; rw [h]; rfl

/-- Witness for C4 at the spec's scenario 1 program (`if
(flight.homeDistance > 100) (override.vtx.power = 3)`), applied to its first
emitted command. -/
theorem claim_C4_witness :
    (generate ⟨[.eventHandler
        { handler := "if_0", config := ⟨none⟩,
          condition := .bin (">") (.str ("flight.homeDistance")) (.num 100),
          reuse := none, invertReuse := false, id := 0,
          body := [.assign ⟨"override.vtx.power", .num 3, none, .nullE, .nullE⟩],
          args := [] }]⟩ =
      .ok [⟨0, 1, -1, 2, ⟨.flight, 1⟩, ⟨.value, 100⟩, 0⟩,
           ⟨1, 1, 0, 25, ⟨.value, 3⟩, ⟨.value, 0⟩, 0⟩]) ∧
    renderCommand ⟨0, 1, -1, 2, ⟨.flight, 1⟩, ⟨.value, 100⟩, 0⟩ =
      sjoin (" ") (("logic") ::
        ((⟨0, 1, -1, 2, ⟨.flight, 1⟩, ⟨.value, 100⟩, 0⟩ : Command).fields.map toString)) ∧
    renderCommand ⟨0, 1, -1, 2, ⟨.flight, 1⟩, ⟨.value, 100⟩, 0⟩ = "logic 0 1 -1 2 2 1 0 100 0" := by
  refine ⟨by decide, ?_, by decide⟩
  exact (claim_C4_command_format
    ⟨[.eventHandler
        { handler := "if_0", config := ⟨none⟩,
          condition := .bin (">") (.str ("flight.homeDistance")) (.num 100),
          reuse := none, invertReuse := false, id := 0,
          body := [.assign ⟨"override.vtx.power", .num 3, none, .nullE, .nullE⟩],
          args := [] }]⟩
    [⟨0, 1, -1, 2, ⟨.flight, 1⟩, ⟨.value, 100⟩, 0⟩,
     ⟨1, 1, 0, 25, ⟨.value, 3⟩, ⟨.value, 0⟩, 0⟩]
    ⟨0, 1, -1, 2, ⟨.flight, 1⟩, ⟨.value, 100⟩, 0⟩
    (by decide) (by decide)).1

/-! ## Invariant lemmas for claim C7 -/

theorem Inv_initState : Inv initState := by
  refine ⟨rfl, ?_, ?_⟩ <;> intro c hc <;> cases hc

theorem Inv_addError (s : GenState) (m : String) (h : Inv s) : Inv (addError s m) := h

theorem Inv_insertCse (s : GenState) (idn cid : Nat) (h : Inv s) (hcid : cid < s.lcIndex) :
    Inv { s with cseMap := (idn, cid) :: s.cseMap } := by
  obtain ⟨h1, h2, h3⟩ := h
  refine ⟨h1, h2, ?_⟩
  intro p hp
  rcases List.mem_cons.mp hp with hp | hp
  · subst hp; exact hcid
  · exact h3 p hp

theorem opndOK_not_lc (s : GenState) (o : Operand) (h : o.ty ≠ .lc) : opndOK s o :=
  fun hlc => absurd hlc h

theorem opndOK_value (s : GenState) (v : Int) : opndOK s ⟨.value, v⟩ :=
  fun hlc => nomatch hlc

theorem opndOK_gvar (s : GenState) (v : Int) : opndOK s ⟨.gvar, v⟩ :=
  fun hlc => nomatch hlc

theorem opndOK_rcChannel (s : GenState) (v : Int) : opndOK s ⟨.rcChannel, v⟩ :=
  fun hlc => nomatch hlc

theorem opndOK_lc (s : GenState) (v : Nat) (h : v < s.lcIndex) :
    opndOK s ⟨.lc, (v : Int)⟩ := by
  intro _
  show (0 : Int) ≤ (v : Int) ∧ (v : Int) < (s.lcIndex : Int)
  exact ⟨Int.natCast_nonneg v, by exact_mod_cast h⟩

theorem opndOK_mono (s t : GenState) (o : Operand) (h : s.lcIndex ≤ t.lcIndex) :
    opndOK s o → opndOK t o := by
  intro ho hlc
  exact ⟨(ho hlc).1, lt_of_lt_of_le (ho hlc).2 (by exact_mod_cast h)⟩

theorem emit_Inv (s : GenState) (act op : Int) (a b : Operand)
    (hs : Inv s) (ha : opndOK s a) (hb : opndOK s b) : Inv (emit s act op a b) := by
  obtain ⟨h1, h2, h3⟩ := hs
  refine ⟨?_, ?_, ?_⟩
  · simp [emit, h1, List.range_succ]
  · intro c hc
    rw [emit_commands] at hc
    rcases List.mem_append.mp hc with hc | hc
    · exact h2 c hc
    · rw [List.mem_singleton] at hc
      subst hc
      exact ⟨fun hlc => ha hlc, fun hlc => hb hlc⟩
  · intro p hp
    exact Nat.lt_succ_of_lt (h3 p hp)

theorem lookupStr_mem {α : Type} (l : List (String × α)) (k : String) (v : α)
    (h : lookupStr l k = some v) : v ∈ l.map Prod.snd := by
  induction l with
  | nil => cases h
  | cons p ps ih =>
    rw [lookupStr] at h
    split at h
    · cases h; simp
    · simpa using Or.inr (ih h)

/-- Values stored in the catalog mapping are never `LC_RESULT` references. -/
theorem operandMapping_not_lc (v : String) (o : Operand)
    (h : operandMapping v = some o) : o.ty ≠ .lc := by
  have hall : ∀ x ∈ operandMappingList.map Prod.snd, x.ty ≠ OpType.lc := by decide
  exact hall o (lookupStr_mem _ _ _ h)

/-- Operand resolution preserves the invariant, never moves the cursor
backwards, and returns an operand usable at the new cursor. -/
theorem getOperand_Inv (e : Expr) (act : Int) (s : GenState) :
    ∀ (s' : GenState) (o : Operand), Inv s → getOperand e act s = .ok (s', o) →
      Inv s' ∧ s.lcIndex ≤ s'.lcIndex ∧ opndOK s' o := by
  induction e, act, s using getOperand.induct with
  | case1 =>
    intro s' o hI h
    rw [getOperand] at h
    cases h
    exact ⟨hI, le_refl _, opndOK_value _ _⟩
  | case2 =>
    intro s' o hI h
    rw [getOperand] at h
    cases h
    exact ⟨hI, le_refl _, opndOK_value _ _⟩
  | case3 =>
    rename_i act s v hgv i hfd
    intro s' o hI h
    rw [getOperand] at h
    simp only [hgv, hfd, if_true] at h
    cases h
    exact ⟨hI, le_refl _, opndOK_gvar _ _⟩
  | case4 =>
    rename_i act s v hgv hfd
    intro s' o hI h
    rw [getOperand] at h
    simp [hgv, hfd] at h
  | case5 =>
    rename_i act s v hgv hrc i hfd
    intro s' o hI h
    rw [getOperand] at h
    rw [if_neg (by simp [hgv])] at h
    simp only [hrc, hfd, if_true] at h
    cases h
    exact ⟨hI, le_refl _, opndOK_rcChannel _ _⟩
  | case6 =>
    rename_i act s v hgv hrc hfd
    intro s' o hI h
    rw [getOperand] at h
    simp [hgv, hrc, hfd] at h
  | case7 =>
    rename_i act s v hgv hrc om hmap
    intro s' o hI h
    rw [getOperand] at h
    rw [if_neg (by simp [hgv]), if_neg (by simp [hrc])] at h
    simp only [hmap] at h
    cases h
    exact ⟨hI, le_refl _, opndOK_not_lc _ _ (operandMapping_not_lc _ _ hmap)⟩
  | case8 =>
    rename_i act s v hgv hrc hmap
    intro s' o hI h
    rw [getOperand] at h
    rw [if_neg (by simp [hgv]), if_neg (by simp [hrc])] at h
    simp only [hmap] at h
    cases h
    exact ⟨Inv_addError _ _ hI, le_refl _, opndOK_value _ _⟩
  | case9 =>
    rename_i act s a e herr ih1
    intro s' o hI h
    rw [getOperand] at h
    simp [herr] at h
  | case10 =>
    rename_i act s a s1 arg hok ih1
    intro s' o hI h
    rw [getOperand] at h
    simp only [hok, if_true, List.length_cons, List.length_nil] at h
    obtain ⟨hI1, hmono1, harg⟩ := ih1 s1 arg hI hok
    cases h
    have hI2 : Inv (emit s1 act OPERATION.SUB ⟨.value, 0⟩ arg) :=
      emit_Inv _ _ _ _ _ hI1 (opndOK_not_lc _ _ (by decide)) harg
    have hI3 : Inv (emit (emit s1 act OPERATION.SUB ⟨.value, 0⟩ arg) act OPERATION.MAX arg
        ⟨.lc, s1.lcIndex⟩) :=
      emit_Inv _ _ _ _ _ hI2
        (opndOK_mono _ _ _ (by rw [emit_lcIndex]; exact Nat.le_succ _) harg)
        (opndOK_lc _ _ (by rw [emit_lcIndex]; exact Nat.lt_succ_self _))
    refine ⟨hI3, le_trans hmono1 ?_, opndOK_lc _ _ ?_⟩
    · simp only [emit_lcIndex]; omega
    · simp only [emit_lcIndex]; omega
  | case11 =>
    rename_i act s args hne
    intro s' o hI h
    rw [getOperand.eq_5 _ _ _ _ hne] at h
    rw [if_pos rfl] at h
    cases h
    exact ⟨Inv_addError _ _ hI, le_refl _, opndOK_value _ _⟩
  | case12 =>
    rename_i act s callee args hne
    intro s' o hI h
    cases args with
    | nil =>
      rw [getOperand.eq_5 _ _ _ _ (by intro a ha; cases ha)] at h
      rw [if_neg hne] at h
      cases h
      exact ⟨Inv_addError _ _ hI, le_refl _, opndOK_value _ _⟩
    | cons a rest =>
      cases rest with
      | nil =>
        rw [getOperand] at h
        rw [if_neg hne] at h
        cases h
        exact ⟨Inv_addError _ _ hI, le_refl _, opndOK_value _ _⟩
      | cons b rest2 =>
        rw [getOperand.eq_5 _ _ _ _ (by intro x hx; cases hx)] at h
        rw [if_neg hne] at h
        cases h
        exact ⟨Inv_addError _ _ hI, le_refl _, opndOK_value _ _⟩
  | case13 =>
    rename_i act s op l r e herr ih1
    intro s' o hI h
    rw [getOperand] at h
    simp [herr] at h
  | case14 =>
    rename_i act s op l r s1 arg hok e herr ih2 ih1
    intro s' o hI h
    rw [getOperand] at h
    simp [hok, herr] at h
  | case15 =>
    rename_i act s op l r s1 left hokl s2 right hokr ih2 ih1
    intro s' o hI h
    rw [getOperand] at h
    simp only [hokl, hokr] at h
    obtain ⟨hI1, hmono1, hleft⟩ := ih2 s1 left hI hokl
    obtain ⟨hI2, hmono2, hright⟩ := ih1 s2 right hI1 hokr
    cases h
    have hI3 : Inv (emit s2 act (getArithmeticOperation op) left right) :=
      emit_Inv _ _ _ _ _ hI2 (opndOK_mono _ _ _ hmono2 hleft) hright
    refine ⟨hI3, le_trans hmono1 (le_trans hmono2 ?_), opndOK_lc _ _ ?_⟩
    · simp only [emit_lcIndex]; omega
    · simp only [emit_lcIndex]; omega
  | case16 =>
    intro s' o hI h
    rw [getOperand] at h
    cases h
    exact ⟨hI, le_refl _, opndOK_value _ _⟩

theorem opndOK_flight (s : GenState) (v : Int) : opndOK s ⟨.flight, v⟩ :=
  fun hlc => nomatch hlc

theorem mapLookup_mem (m : List (Nat × Nat)) (k v : Nat)
    (h : mapLookup m k = some v) : ∃ p ∈ m, p.2 = v := by
  induction m with
  | nil => cases h
  | cons p ps ih =>
    rw [mapLookup] at h
    split at h
    · cases h; exact ⟨p, List.mem_cons_self _ _, rfl⟩
    · obtain ⟨q, hq, hqv⟩ := ih h
      exact ⟨q, List.mem_cons_of_mem _ hq, hqv⟩

/-- A well-formed arrow argument whose extracted expression is non-null has a
well-formed extracted condition tree. -/
theorem wfCond_extract (a : Arg) (hw : wfArg a = true)
    (hn : ¬ (extractExpression a).isNull = true) :
    wfCond (extractExpression a) = true := by
  cases a with
  | arrowExpr c =>
    rw [wfArg] at hw
    rw [extractExpression] at hn ⊢
    simp only [Bool.or_eq_true] at hw
    rcases hw with h | h
    · exact absurd h hn
    · exact h
  | config d => exact absurd rfl hn
  | arrowBody b => exact absurd rfl hn
  | lit v => exact absurd rfl hn

/-- Condition lowering preserves the invariant, never moves the cursor
backwards, and — for a well-formed condition tree — returns the slot of a
record emitted below the new cursor. -/
theorem generateCondition_Inv (c : Cond) :
    ∀ (act : Int) (s s' : GenState) (r : Nat), Inv s → wfCond c = true →
      generateCondition c act s = .ok (s', r) →
      Inv s' ∧ s.lcIndex ≤ s'.lcIndex ∧ r < s'.lcIndex := by
  induction c with
  | bin op l r =>
    intro act s s' rid hI _ h
    rw [generateCondition] at h
    cases hl : getOperand l (-1) s with
    | error e => rw [hl] at h; cases h
    | ok p1 =>
      obtain ⟨s1, left⟩ := p1
      cases hr : getOperand r (-1) s1 with
      | error e => (simp only [hl, hr] at h; cases h)
      | ok p2 =>
        obtain ⟨s2, right⟩ := p2
        simp only [hl, hr] at h
        cases h
        obtain ⟨hI1, hm1, hL⟩ := getOperand_Inv l (-1) s s1 left hI hl
        obtain ⟨hI2, hm2, hR⟩ := getOperand_Inv r (-1) s1 s2 right hI1 hr
        exact ⟨emit_Inv _ _ _ _ _ hI2 (opndOK_mono _ _ _ hm2 hL) hR,
          le_trans hm1 (le_trans hm2 (by rw [emit_lcIndex]; exact Nat.le_succ _)),
          by rw [emit_lcIndex]; exact Nat.lt_succ_self _⟩
  | logical op l r ihl ihr =>
    intro act s s' rid hI hwf h
    rw [wfCond] at hwf
    simp only [Bool.and_eq_true] at hwf
    obtain ⟨hwl, hwr⟩ := hwf
    rw [generateCondition] at h
    cases hl : generateCondition l act s with
    | error e => rw [hl] at h; cases h
    | ok p1 =>
      obtain ⟨s1, leftId⟩ := p1
      cases hr : generateCondition r act s1 with
      | error e => (simp only [hl, hr] at h; cases h)
      | ok p2 =>
        obtain ⟨s2, rightId⟩ := p2
        simp only [hl, hr] at h
        cases h
        obtain ⟨hI1, hm1, hL⟩ := ihl act s s1 leftId hI hwl hl
        obtain ⟨hI2, hm2, hR⟩ := ihr act s1 s2 rightId hI1 hwr hr
        exact ⟨emit_Inv _ _ _ _ _ hI2
            (opndOK_mono _ _ _ hm2 (opndOK_lc _ _ hL)) (opndOK_lc _ _ hR),
          le_trans hm1 (le_trans hm2 (by rw [emit_lcIndex]; exact Nat.le_succ _)),
          by rw [emit_lcIndex]; exact Nat.lt_succ_self _⟩
  | unary a ih =>
    intro act s s' rid hI hwf h
    rw [wfCond] at hwf
    rw [generateCondition] at h
    cases ha : generateCondition a act s with
    | error e => rw [ha] at h; cases h
    | ok p1 =>
      obtain ⟨s1, argId⟩ := p1
      simp only [ha] at h
      cases h
      obtain ⟨hI1, hm1, hA⟩ := ih act s s1 argId hI hwf ha
      exact ⟨emit_Inv _ _ _ _ _ hI1 (opndOK_lc _ _ hA) (opndOK_value _ _),
        le_trans hm1 (by rw [emit_lcIndex]; exact Nat.le_succ _),
        by rw [emit_lcIndex]; exact Nat.lt_succ_self _⟩
  | member v =>
    intro act s s' rid hI _ h
    rw [generateCondition] at h
    cases hv : getOperand v (-1) s with
    | error e => rw [hv] at h; cases h
    | ok p1 =>
      obtain ⟨s1, operand⟩ := p1
      simp only [hv] at h
      cases h
      obtain ⟨hI1, hm1, hOp⟩ := getOperand_Inv v (-1) s s1 operand hI hv
      exact ⟨emit_Inv _ _ _ _ _ hI1 hOp (opndOK_value _ _),
        le_trans hm1 (by rw [emit_lcIndex]; exact Nat.le_succ _),
        by rw [emit_lcIndex]; exact Nat.lt_succ_self _⟩
  | lit v =>
    intro act s s' rid hI _ h
    by_cases hv : v = Expr.boolv true
    · subst hv
      rw [generateCondition] at h
      cases h
      exact ⟨emit_Inv _ _ _ _ _ hI (opndOK_value _ _) (opndOK_value _ _),
        by rw [emit_lcIndex]; exact Nat.le_succ _,
        by rw [emit_lcIndex]; exact Nat.lt_succ_self _⟩
    · rw [generateCondition.eq_7 _ _ _ (fun he => hv he)] at h
      cases h
      exact ⟨emit_Inv _ _ _ _ _ hI (opndOK_value _ _) (opndOK_value _ _),
        by rw [emit_lcIndex]; exact Nat.le_succ _,
        by rw [emit_lcIndex]; exact Nat.lt_succ_self _⟩
  | unknown tag =>
    intro act s s' rid hI hwf h
    simp [wfCond] at hwf
  | null =>
    intro act s s' rid hI hwf h
    simp [wfCond] at hwf

/-- Action lowering preserves the invariant and never moves the cursor
backwards. -/
theorem generateAction_Inv (a : Action) (act : Int) (s : GenState) :
    ∀ (s' : GenState), Inv s → generateAction a act s = .ok (s', ()) →
      Inv s' ∧ s.lcIndex ≤ s'.lcIndex := by
  cases a with
  | other tag =>
    intro s' hI h
    rw [generateAction] at h
    cases h
    exact ⟨hI, le_refl _⟩
  | assign asg =>
    intro s' hI h
    rw [generateAction] at h
    split at h
    · -- gvar[ target
      split at h
      · cases h
      · rename_i index _
        split at h
        · rename_i op _
          cases hl : getOperand asg.left (-1) s with
          | error e => rw [hl] at h; cases h
          | ok p1 =>
            obtain ⟨s1, left⟩ := p1
            cases hr : getOperand asg.right (-1) s1 with
            | error e => (simp only [hl, hr] at h; cases h)
            | ok p2 =>
              obtain ⟨s2, right⟩ := p2
              simp only [hl, hr] at h
              obtain ⟨hI1, hm1, hL⟩ := getOperand_Inv asg.left (-1) s s1 left hI hl
              obtain ⟨hI2, hm2, hR⟩ := getOperand_Inv asg.right (-1) s1 s2 right hI1 hr
              split at h
              · cases h
                exact ⟨emit_Inv _ _ _ _ _ hI2 (opndOK_value _ _) hR,
                  le_trans hm1 (le_trans hm2 (by rw [emit_lcIndex]; exact Nat.le_succ _))⟩
              · split at h
                · cases h
                  exact ⟨emit_Inv _ _ _ _ _ hI2 (opndOK_value _ _) hR,
                    le_trans hm1 (le_trans hm2 (by rw [emit_lcIndex]; exact Nat.le_succ _))⟩
                · split at h
                  · cases h
                    exact ⟨emit_Inv _ _ _ _ _ hI2 (opndOK_value _ _)
                        (opndOK_mono _ _ _ hm2 hL),
                      le_trans hm1 (le_trans hm2 (by rw [emit_lcIndex]; exact Nat.le_succ _))⟩
                  · cases h
                    have hI3 : Inv (emit s2 act (getArithmeticOperation op) left right) :=
                      emit_Inv _ _ _ _ _ hI2 (opndOK_mono _ _ _ hm2 hL) hR
                    refine ⟨emit_Inv _ _ _ _ _ hI3 (opndOK_value _ _)
                        (opndOK_lc _ _ (by rw [emit_lcIndex]; exact Nat.lt_succ_self _)),
                      le_trans hm1 (le_trans hm2 ?_)⟩
                    rw [emit_lcIndex, emit_lcIndex]
                    omega
        · cases hv : getOperand asg.value (-1) s with
          | error e => rw [hv] at h; cases h
          | ok p1 =>
            obtain ⟨s1, valueOperand⟩ := p1
            simp only [hv] at h
            cases h
            obtain ⟨hI1, hm1, hV⟩ := getOperand_Inv asg.value (-1) s s1 valueOperand hI hv
            exact ⟨emit_Inv _ _ _ _ _ hI1 (opndOK_value _ _) hV,
              le_trans hm1 (by rw [emit_lcIndex]; exact Nat.le_succ _)⟩
    · -- not a gvar[ target: rc[ / override. / diagnostic chain
      split at h
      · -- rc[ target
        split at h
        · cases h
          exact ⟨Inv_addError _ _ hI, le_refl _⟩
        · rename_i channel _
          split at h
          · cases h
            exact ⟨Inv_addError _ _ hI, le_refl _⟩
          · cases hv : getOperand asg.value (-1) s with
            | error e => rw [hv] at h; cases h
            | ok p1 =>
              obtain ⟨s1, valueOperand⟩ := p1
              simp only [hv] at h
              cases h
              obtain ⟨hI1, hm1, hV⟩ := getOperand_Inv asg.value (-1) s s1 valueOperand hI hv
              exact ⟨emit_Inv _ _ _ _ _ hI1 (opndOK_value _ _) hV,
                le_trans hm1 (by rw [emit_lcIndex]; exact Nat.le_succ _)⟩
      · -- not rc[ either: override. / diagnostic
        split at h
        · -- override. target
          split at h
          · cases h
          · rename_i operation _
            cases hv : getOperand asg.value (-1) s with
            | error e => rw [hv] at h; cases h
            | ok p1 =>
              obtain ⟨s1, valueOperand⟩ := p1
              simp only [hv] at h
              cases h
              obtain ⟨hI1, hm1, hV⟩ := getOperand_Inv asg.value (-1) s s1 valueOperand hI hv
              exact ⟨emit_Inv _ _ _ _ _ hI1 hV (opndOK_value _ _),
                le_trans hm1 (by rw [emit_lcIndex]; exact Nat.le_succ _)⟩
        · cases h
          exact ⟨Inv_addError _ _ hI, le_refl _⟩

/-- The action loop preserves the invariant and never moves the cursor
backwards. -/
theorem generateActions_Inv (acts : List Action) :
    ∀ (act : Int) (s s' : GenState), Inv s →
      generateActions acts act s = .ok (s', ()) →
      Inv s' ∧ s.lcIndex ≤ s'.lcIndex := by
  induction acts with
  | nil =>
    intro act s s' hI h
    rw [generateActions] at h
    cases h
    exact ⟨hI, le_refl _⟩
  | cons a rest ih =>
    intro act s s' hI h
    rw [generateActions] at h
    cases ha : generateAction a act s with
    | error e => rw [ha] at h; cases h
    | ok p =>
      obtain ⟨s1, u⟩ := p
      simp only [ha] at h
      obtain ⟨hI1, hm1⟩ := generateAction_Inv a act s s1 hI ha
      obtain ⟨hI2, hm2⟩ := ih act s1 s' hI1 h
      exact ⟨hI2, le_trans hm1 hm2⟩

/-- `on.arm` lowering preserves the invariant. -/
theorem generateOnArm_Inv (stmt : EventHandler) (s s' : GenState)
    (hI : Inv s) (h : generateOnArm stmt s = .ok (s', ())) :
    Inv s' ∧ s.lcIndex ≤ s'.lcIndex := by
  rw [generateOnArm] at h
  have hI1 : Inv (emit s (-1) OPERATION.GREATER_THAN ⟨.flight, 0⟩ ⟨.value, 0⟩) :=
    emit_Inv _ _ _ _ _ hI (opndOK_flight _ _) (opndOK_value _ _)
  have hI2 : Inv (emit (emit s (-1) OPERATION.GREATER_THAN ⟨.flight, 0⟩ ⟨.value, 0⟩) (-1)
      OPERATION.EDGE ⟨.lc, s.lcIndex⟩ ⟨.value, jsOrInt stmt.config.delay 0⟩) :=
    emit_Inv _ _ _ _ _ hI1
      (opndOK_lc _ _ (by rw [emit_lcIndex]; exact Nat.lt_succ_self _)) (opndOK_value _ _)
  obtain ⟨hI3, hm3⟩ := generateActions_Inv stmt.body _ _ s' hI2 h
  refine ⟨hI3, le_trans ?_ hm3⟩
  rw [emit_lcIndex, emit_lcIndex]
  omega

/-- `on.always` lowering preserves the invariant. -/
theorem generateOnAlways_Inv (stmt : EventHandler) (s s' : GenState)
    (hI : Inv s) (h : generateOnAlways stmt s = .ok (s', ())) :
    Inv s' ∧ s.lcIndex ≤ s'.lcIndex := by
  rw [generateOnAlways] at h
  have hI1 : Inv (emit s (-1) OPERATION.TRUE ⟨.value, 0⟩ ⟨.value, 0⟩) :=
    emit_Inv _ _ _ _ _ hI (opndOK_value _ _) (opndOK_value _ _)
  obtain ⟨hI2, hm2⟩ := generateActions_Inv stmt.body _ _ s' hI1 h
  refine ⟨hI2, le_trans ?_ hm2⟩
  rw [emit_lcIndex]
  exact Nat.le_succ _

/-- Conditional (`if`) lowering preserves the invariant, including through
the common-subexpression reuse paths. -/
theorem generateConditional_Inv (stmt : EventHandler) (s s' : GenState)
    (hI : Inv s) (hwf : wfHandler stmt = true)
    (h : generateConditional stmt s = .ok (s', ())) :
    Inv s' ∧ s.lcIndex ≤ s'.lcIndex := by
  rw [generateConditional] at h
  split at h
  · cases h
    exact ⟨hI, le_refl _⟩
  · rename_i hnn
    have hwc : wfCond stmt.condition = true := by
      rw [wfHandler] at hwf
      simp only [Bool.and_eq_true, Bool.or_eq_true] at hwf
      rcases hwf.1 with hn | hc
      · exact absurd hn hnn
      · exact hc
    split at h
    · -- stmt.reuse = some rid
      rename_i rid hrid
      split at h
      · -- a stored condition slot exists
        rename_i cid hcid
        obtain ⟨p, hp, hpv⟩ := mapLookup_mem _ _ _ hcid
        have hlt : cid < s.lcIndex := hpv ▸ hI.2.2 p hp
        split at h
        · have hI1 : Inv (emit s (-1) OPERATION.NOT ⟨.lc, cid⟩ ⟨.value, 0⟩) :=
            emit_Inv _ _ _ _ _ hI (opndOK_lc _ _ hlt) (opndOK_value _ _)
          obtain ⟨hI2, hm2⟩ := generateActions_Inv stmt.body _ _ s' hI1 h
          refine ⟨hI2, le_trans ?_ hm2⟩
          rw [emit_lcIndex]
          exact Nat.le_succ _
        · exact generateActions_Inv stmt.body _ _ s' hI h
      · -- no stored slot: fresh condition
        cases hc : generateCondition stmt.condition (-1) s with
        | error e => rw [hc] at h; cases h
        | ok p =>
          obtain ⟨s1, conditionId⟩ := p
          simp only [hc] at h
          obtain ⟨hI1, hm1, hcid⟩ :=
            generateCondition_Inv stmt.condition (-1) s s1 conditionId hI hwc hc
          have hI2 : Inv { s1 with cseMap := (stmt.id, conditionId) :: s1.cseMap } :=
            Inv_insertCse _ _ _ hI1 hcid
          obtain ⟨hI3, hm3⟩ := generateActions_Inv stmt.body _ _ s' hI2 h
          exact ⟨hI3, le_trans hm1 hm3⟩
    · -- stmt.reuse = none
      cases hc : generateCondition stmt.condition (-1) s with
      | error e => rw [hc] at h; cases h
      | ok p =>
        obtain ⟨s1, conditionId⟩ := p
        simp only [hc] at h
        obtain ⟨hI1, hm1, hcid⟩ :=
          generateCondition_Inv stmt.condition (-1) s s1 conditionId hI hwc hc
        have hI2 : Inv { s1 with cseMap := (stmt.id, conditionId) :: s1.cseMap } :=
          Inv_insertCse _ _ _ hI1 hcid
        obtain ⟨hI3, hm3⟩ := generateActions_Inv stmt.body _ _ s' hI2 h
        exact ⟨hI3, le_trans hm1 hm3⟩

/-- `edge()` lowering preserves the invariant. -/
theorem generateEdge_Inv (stmt : EventHandler) (s s' : GenState)
    (hI : Inv s) (hwf : wfHandler stmt = true)
    (h : generateEdge stmt s = .ok (s', ())) :
    Inv s' ∧ s.lcIndex ≤ s'.lcIndex := by
  rw [generateEdge] at h
  split at h
  · rename_i a0 a1 a2 rest heq
    split at h
    · cases h
      exact ⟨Inv_addError _ _ hI, le_refl _⟩
    · rename_i hnn
      have hwc : wfCond (extractExpression a0) = true := by
        rw [wfHandler] at hwf
        simp only [Bool.and_eq_true] at hwf
        have ha0 : wfArg a0 = true := by
          have hall := hwf.2
          rw [heq] at hall
          simp only [List.all_cons, Bool.and_eq_true] at hall
          exact hall.1
        exact wfCond_extract a0 ha0 hnn
      cases hc : generateCondition (extractExpression a0) (-1) s with
      | error e => rw [hc] at h; cases h
      | ok p =>
        obtain ⟨s1, conditionId⟩ := p
        simp only [hc] at h
        obtain ⟨hI1, hm1, hcid⟩ :=
          generateCondition_Inv (extractExpression a0) (-1) s s1 conditionId hI hwc hc
        have hI2 : Inv (emit s1 (-1) OPERATION.EDGE ⟨.lc, conditionId⟩
            ⟨.value, extractDuration a1⟩) :=
          emit_Inv _ _ _ _ _ hI1 (opndOK_lc _ _ hcid) (opndOK_value _ _)
        obtain ⟨hI3, hm3⟩ := generateActions_Inv (extractBody a2) _ _ s' hI2 h
        refine ⟨hI3, le_trans hm1 (le_trans ?_ hm3)⟩
        rw [emit_lcIndex]
        exact Nat.le_succ _
  · cases h
    exact ⟨Inv_addError _ _ hI, le_refl _⟩

/-- `sticky()` lowering preserves the invariant. -/
theorem generateSticky_Inv (stmt : EventHandler) (s s' : GenState)
    (hI : Inv s) (hwf : wfHandler stmt = true)
    (h : generateSticky stmt s = .ok (s', ())) :
    Inv s' ∧ s.lcIndex ≤ s'.lcIndex := by
  rw [generateSticky] at h
  split at h
  · rename_i a0 a1 a2 rest heq
    split at h
    · cases h
      exact ⟨Inv_addError _ _ hI, le_refl _⟩
    · rename_i hnn
      have hargs : wfArg a0 = true ∧ wfArg a1 = true := by
        rw [wfHandler] at hwf
        simp only [Bool.and_eq_true] at hwf
        have hall := hwf.2
        rw [heq] at hall
        simp only [List.all_cons, Bool.and_eq_true] at hall
        exact ⟨hall.1, hall.2.1⟩
      have hwc0 : wfCond (extractExpression a0) = true :=
        wfCond_extract a0 hargs.1 (fun hh => hnn (Or.inl hh))
      have hwc1 : wfCond (extractExpression a1) = true :=
        wfCond_extract a1 hargs.2 (fun hh => hnn (Or.inr hh))
      cases hc0 : generateCondition (extractExpression a0) (-1) s with
      | error e => rw [hc0] at h; cases h
      | ok p0 =>
        obtain ⟨s1, onConditionId⟩ := p0
        cases hc1 : generateCondition (extractExpression a1) (-1) s1 with
        | error e => (simp only [hc0, hc1] at h; cases h)
        | ok p1 =>
          obtain ⟨s2, offConditionId⟩ := p1
          simp only [hc0, hc1] at h
          obtain ⟨hI1, hm1, hon⟩ :=
            generateCondition_Inv (extractExpression a0) (-1) s s1 onConditionId hI hwc0 hc0
          obtain ⟨hI2, hm2, hoff⟩ :=
            generateCondition_Inv (extractExpression a1) (-1) s1 s2 offConditionId hI1 hwc1 hc1
          have hI3 : Inv (emit s2 (-1) OPERATION.STICKY ⟨.lc, onConditionId⟩
              ⟨.lc, offConditionId⟩) :=
            emit_Inv _ _ _ _ _ hI2
              (opndOK_mono _ _ _ hm2 (opndOK_lc _ _ hon)) (opndOK_lc _ _ hoff)
          obtain ⟨hI4, hm4⟩ := generateActions_Inv (extractBody a2) _ _ s' hI3 h
          refine ⟨hI4, le_trans hm1 (le_trans hm2 (le_trans ?_ hm4))⟩
          rw [emit_lcIndex]
          exact Nat.le_succ _
  · cases h
    exact ⟨Inv_addError _ _ hI, le_refl _⟩

/-- `delay()` lowering preserves the invariant. -/
theorem generateDelay_Inv (stmt : EventHandler) (s s' : GenState)
    (hI : Inv s) (hwf : wfHandler stmt = true)
    (h : generateDelay stmt s = .ok (s', ())) :
    Inv s' ∧ s.lcIndex ≤ s'.lcIndex := by
  rw [generateDelay] at h
  split at h
  · rename_i a0 a1 a2 rest heq
    split at h
    · cases h
      exact ⟨Inv_addError _ _ hI, le_refl _⟩
    · rename_i hnn
      have hwc : wfCond (extractExpression a0) = true := by
        rw [wfHandler] at hwf
        simp only [Bool.and_eq_true] at hwf
        have hall := hwf.2
        rw [heq] at hall
        simp only [List.all_cons, Bool.and_eq_true] at hall
        exact wfCond_extract a0 hall.1 hnn
      cases hc : generateCondition (extractExpression a0) (-1) s with
      | error e => rw [hc] at h; cases h
      | ok p =>
        obtain ⟨s1, conditionId⟩ := p
        simp only [hc] at h
        obtain ⟨hI1, hm1, hcid⟩ :=
          generateCondition_Inv (extractExpression a0) (-1) s s1 conditionId hI hwc hc
        have hI2 : Inv (emit s1 (-1) OPERATION.DELAY ⟨.lc, conditionId⟩
            ⟨.value, extractDuration a1⟩) :=
          emit_Inv _ _ _ _ _ hI1 (opndOK_lc _ _ hcid) (opndOK_value _ _)
        obtain ⟨hI3, hm3⟩ := generateActions_Inv (extractBody a2) _ _ s' hI2 h
        refine ⟨hI3, le_trans hm1 (le_trans ?_ hm3)⟩
        rw [emit_lcIndex]
        exact Nat.le_succ _
  · cases h
    exact ⟨Inv_addError _ _ hI, le_refl _⟩

/-- `timer()` lowering preserves the invariant. -/
theorem generateTimer_Inv (stmt : EventHandler) (s s' : GenState)
    (hI : Inv s) (h : generateTimer stmt s = .ok (s', ())) :
    Inv s' ∧ s.lcIndex ≤ s'.lcIndex := by
  rw [generateTimer] at h
  split at h
  · split at h
    · rename_i onMs offMs _ _
      split at h
      · cases h
        exact ⟨Inv_addError _ _ hI, le_refl _⟩
      · have hI1 : Inv (emit s (-1) OPERATION.TIMER ⟨.value, onMs⟩ ⟨.value, offMs⟩) :=
          emit_Inv _ _ _ _ _ hI (opndOK_value _ _) (opndOK_value _ _)
        obtain ⟨hI2, hm2⟩ := generateActions_Inv _ _ _ s' hI1 h
        refine ⟨hI2, le_trans ?_ hm2⟩
        rw [emit_lcIndex]
        exact Nat.le_succ _
    · cases h
      exact ⟨Inv_addError _ _ hI, le_refl _⟩
  · cases h
    exact ⟨Inv_addError _ _ hI, le_refl _⟩

/-- `whenChanged()` lowering preserves the invariant. -/
theorem generateWhenChanged_Inv (stmt : EventHandler) (s s' : GenState)
    (hI : Inv s) (h : generateWhenChanged stmt s = .ok (s', ())) :
    Inv s' ∧ s.lcIndex ≤ s'.lcIndex := by
  rw [generateWhenChanged] at h
  split at h
  · rename_i a0 a1 a2 rest heq
    split at h
    · rename_i threshold hth
      split at h
      · cases h
        exact ⟨Inv_addError _ _ hI, le_refl _⟩
      · cases hv : getOperand (extractIdentifierArg a0) (-1) s with
        | error e => rw [hv] at h; cases h
        | ok p =>
          obtain ⟨s1, valueOperand⟩ := p
          simp only [hv] at h
          obtain ⟨hI1, hm1, hV⟩ :=
            getOperand_Inv (extractIdentifierArg a0) (-1) s s1 valueOperand hI hv
          have hI2 : Inv (emit s1 (-1) OPERATION.DELTA valueOperand ⟨.value, threshold⟩) :=
            emit_Inv _ _ _ _ _ hI1 hV (opndOK_value _ _)
          obtain ⟨hI3, hm3⟩ := generateActions_Inv (extractBody a2) _ _ s' hI2 h
          refine ⟨hI3, le_trans hm1 (le_trans ?_ hm3)⟩
          rw [emit_lcIndex]
          exact Nat.le_succ _
    · cases h
      exact ⟨Inv_addError _ _ hI, le_refl _⟩
  · cases h
    exact ⟨Inv_addError _ _ hI, le_refl _⟩

/-- Event-handler dispatch preserves the invariant. -/
theorem generateEventHandler_Inv (stmt : EventHandler) (s s' : GenState)
    (hI : Inv s) (hwf : wfHandler stmt = true)
    (h : generateEventHandler stmt s = .ok (s', ())) :
    Inv s' ∧ s.lcIndex ≤ s'.lcIndex := by
  rw [generateEventHandler] at h
  split at h
  · exact generateOnArm_Inv stmt s s' hI h
  · split at h
    · exact generateOnAlways_Inv stmt s s' hI h
    · split at h
      · exact generateConditional_Inv stmt s s' hI hwf h
      · split at h
        · exact generateEdge_Inv stmt s s' hI hwf h
        · split at h
          · exact generateSticky_Inv stmt s s' hI hwf h
          · split at h
            · exact generateDelay_Inv stmt s s' hI hwf h
            · split at h
              · exact generateTimer_Inv stmt s s' hI h
              · split at h
                · exact generateWhenChanged_Inv stmt s s' hI h
                · exact generateConditional_Inv stmt s s' hI hwf h

/-- Statement lowering preserves the invariant. -/
theorem generateStatement_Inv (st : Stmt) (s s' : GenState)
    (hI : Inv s) (hwf : wfStmt st = true)
    (h : generateStatement st s = .ok (s', ())) :
    Inv s' ∧ s.lcIndex ≤ s'.lcIndex := by
  cases st with
  | eventHandler hd =>
    rw [generateStatement] at h
    exact generateEventHandler_Inv hd s s' hI (by rwa [wfStmt] at hwf) h
  | destructuring =>
    rw [generateStatement] at h
    cases h
    exact ⟨hI, le_refl _⟩
  | letDeclaration =>
    rw [generateStatement] at h
    cases h
    exact ⟨hI, le_refl _⟩
  | varDeclaration =>
    rw [generateStatement] at h
    cases h
    exact ⟨hI, le_refl _⟩
  | unknown tag =>
    rw [generateStatement] at h
    cases h
    exact ⟨Inv_addError _ _ hI, le_refl _⟩

/-- The statement loop preserves the invariant. -/
theorem generateStatements_Inv (stmts : List Stmt) :
    ∀ (s s' : GenState), Inv s → stmts.all wfStmt = true →
      generateStatements stmts s = .ok (s', ()) →
      Inv s' ∧ s.lcIndex ≤ s'.lcIndex := by
  induction stmts with
  | nil =>
    intro s s' hI _ h
    rw [generateStatements] at h
    cases h
    exact ⟨hI, le_refl _⟩
  | cons st rest ih =>
    intro s s' hI hwf h
    simp only [List.all_cons, Bool.and_eq_true] at hwf
    rw [generateStatements] at h
    cases hs : generateStatement st s with
    | error e => rw [hs] at h; cases h
    | ok p =>
      obtain ⟨s1, u⟩ := p
      simp only [hs] at h
      obtain ⟨hI1, hm1⟩ := generateStatement_Inv st s s1 hI hwf.1 hs
      obtain ⟨hI2, hm2⟩ := ih s1 s' hI1 hwf.2 h
      exact ⟨hI2, le_trans hm1 hm2⟩

/-- One reference step between commands that all satisfy `refOK` strictly
decreases the slot number. -/
theorem refIn_slot_lt (cmds : List Command) (href : ∀ c ∈ cmds, refOK c)
    (c c' : Command) (h : refIn cmds c c') : c'.slot < c.slot := by
  obtain ⟨hc, _, hr⟩ := h
  rcases hr with ⟨hty, hval⟩ | ⟨hty, hval⟩
  · have h1 := (href c hc).1 hty
    rw [hval] at h1
    exact_mod_cast h1.2
  · have h1 := (href c hc).2 hty
    rw [hval] at h1
    exact_mod_cast h1.2

/-- Any chain of references between commands that all satisfy `refOK`
strictly decreases the slot number. -/
theorem transGen_refIn_slot_lt (cmds : List Command) (href : ∀ c ∈ cmds, refOK c)
    (c c' : Command) (h : Relation.TransGen (refIn cmds) c c') : c'.slot < c.slot := by
  induction h with
  | single h1 => exact refIn_slot_lt cmds href _ _ h1
  | tail h1 h2 ih => exact lt_trans (refIn_slot_lt cmds href _ _ h2) ih

/-- C7, counterexample to the unconditional claim: `generateCondition`
returns the current cursor for a null child (the slot of a record that does
not exist yet), so an `&&` over two null children emits a record whose
`LC_RESULT` operands name its own slot — the compiler accepts the program,
yet the emitted list has a reference cycle and violates the
backward-reference property. -/
theorem claim_C7_counterexample :
    generate cexProgram = .ok [cexCmd] ∧
    Relation.TransGen (refIn [cexCmd]) cexCmd cexCmd ∧
    ¬ refOK cexCmd :=
  ⟨by decide,
   Relation.TransGen.single
     ⟨List.mem_singleton_self _, List.mem_singleton_self _, Or.inl ⟨rfl, rfl⟩⟩,
   fun hr => absurd (hr.1 rfl).2 (by decide)⟩

/-- C7 (amended): for a well-formed program — every lowered condition tree
built from supported non-null nodes — every successfully returned command
list is a DAG: slots are dense from 0 in emission order, every `LC_RESULT`
operand of every record names a strictly smaller slot, and the reference
relation between records admits no cycle. -/
theorem claim_C7_amended (p : Program) (hwf : wfProgram p = true)
    (cmds : List Command) (h : generate p = .ok cmds) :
    cmds.map Command.slot = List.range cmds.length ∧
    (∀ c ∈ cmds, refOK c) ∧
    ∀ c : Command, ¬ Relation.TransGen (refIn cmds) c c := by
  rw [generate] at h
  cases hs : generateStatements p.statements initState with
  | error e => rw [hs] at h; cases h
  | ok q =>
    obtain ⟨s, u⟩ := q
    simp only [hs] at h
    split at h
    · cases h
      obtain ⟨hI, _⟩ := generateStatements_Inv p.statements initState s Inv_initState
        (by rwa [wfProgram] at hwf) hs
      obtain ⟨h1, h2, _⟩ := hI
      have hlen : s.commands.length = s.lcIndex := by
        have hc := congrArg List.length h1
        simpa using hc
      refine ⟨by rw [hlen, h1], h2, ?_⟩
      intro c hcyc
      exact absurd (transGen_refIn_slot_lt s.commands h2 c c hcyc) (lt_irrefl _)
    · cases h

/-- Witness for C7 at a concrete well-formed program: a conjunction of two
comparisons with an override body, lowered to four records. -/
theorem claim_C7_witness :
    wfProgram c7demo = true ∧
    generate c7demo = .ok c7cmds ∧
    (c7cmds.map Command.slot = List.range c7cmds.length ∧
     (∀ c ∈ c7cmds, refOK c) ∧
     ∀ c : Command, ¬ Relation.TransGen (refIn c7cmds) c c) :=
  ⟨by decide, by decide, claim_C7_amended c7demo (by decide) c7cmds (by decide)⟩

end INAV

